import Mathlib

/-!
Shallow embedding of the banking-ledger transactional core
(`TransactionsService` in the NestJS API: `createTransfer`, `createDeposit`,
`createWithdrawal`, `withIdempotency`, `doTransfer`, `doDeposit`,
`doWithdrawal`) together with the relevant parts of the Prisma data model
(migration `20260210101400_init`).

Modelling conventions:
- The database is a record of lists of rows (`accounts`, `transactions`,
  `idempotencyRecords`) plus a counter `nextId` supplying fresh ids
  (standing in for `randomUUID()` / cuid generation).
- A Prisma `$transaction` is one atomic step: an operation either returns a
  new committed database or an error, in which case the caller keeps the
  database it already had (rollback is automatic in this pure model).
- NestJS exceptions become the `AppError` datatype; the Prisma unique
  constraint violation (error code `P2002`) becomes `AppError.dbError
  "P2002"`, raised by the `IdempotencyRecord` insert when a row with the
  same `(userId, idempotencyKey)` already exists.
- All money amounts are `Int` (the source stores integer cents and performs
  only integer arithmetic on them).
-/

deriving instance DecidableEq for Except

namespace Ledger

/-- Transaction status enum from the Prisma schema. -/
inductive TransactionStatus where
  | PENDING
  | COMPLETED
  | FAILED
deriving DecidableEq, Repr

/-- Transaction type enum from the Prisma schema. -/
inductive TransactionType where
  | DEPOSIT
  | WITHDRAWAL
  | TRANSFER
  | OTHER
deriving DecidableEq, Repr

/-- Idempotency record status enum from the Prisma schema. -/
inductive IdempotencyStatus where
  | PROCESSING
  | COMPLETED
deriving DecidableEq, Repr

/-- An `Account` row (the fields the transactional core touches). -/
structure Account where
  id : String
  userId : String
  balanceCents : Int
deriving DecidableEq, Repr

/-- A `Transaction` row (the fields the transactional core writes). Row ids
and transfer ids are modelled as naturals drawn from the `nextId` counter. -/
structure Txn where
  id : Nat
  accountId : String
  amountCents : Int
  transferId : Nat
  transactionNote : Option String
  status : TransactionStatus
  type : TransactionType
deriving DecidableEq, Repr

/-- `TransactionSummary` as returned in API results. -/
structure TransactionSummary where
  id : Nat
  accountId : String
  amountCents : Int
  status : TransactionStatus
deriving DecidableEq, Repr

/-- `toTransactionSummary` from the service. -/
def toTransactionSummary (t : Txn) : TransactionSummary :=
  { id := t.id
    accountId := t.accountId
    amountCents := t.amountCents
    status := t.status }

/-- `CreateTransferResult`: both legs plus the shared transferId. -/
structure CreateTransferResult where
  transferId : Nat
  fromTransaction : TransactionSummary
  toTransaction : TransactionSummary
deriving DecidableEq, Repr

/-- `CreateDepositResult`: single credit leg. -/
structure CreateDepositResult where
  transferId : Nat
  transaction : TransactionSummary
deriving DecidableEq, Repr

/-- `CreateWithdrawalResult`: single debit leg. -/
structure CreateWithdrawalResult where
  transferId : Nat
  transaction : TransactionSummary
deriving DecidableEq, Repr

/-- `CreateTransactionResult`: the tagged union of the three operation
results (the TS union discriminated by its `type` field). -/
inductive CreateTransactionResult where
  | transfer (r : CreateTransferResult)
  | deposit (r : CreateDepositResult)
  | withdrawal (r : CreateWithdrawalResult)
deriving DecidableEq, Repr

/-- An `IdempotencyRecord` row. `responsePayload` is the stored serialized
result (JSONB in the schema, nullable). -/
structure IdempotencyRecord where
  userId : String
  idempotencyKey : String
  status : IdempotencyStatus
  responsePayload : Option CreateTransactionResult
deriving DecidableEq, Repr

/-- The database state the transactional core reads and writes. -/
structure DB where
  accounts : List Account
  transactions : List Txn
  idempotencyRecords : List IdempotencyRecord
  nextId : Nat
deriving DecidableEq, Repr

/-- Error taxonomy: NestJS exceptions thrown by the service plus Prisma
driver errors carrying a `code` (the `catch` block in `withIdempotency`
reads `err.code`; the Nest exceptions have no such field). -/
inductive AppError where
  | badRequest (message : String)
  | notFound (message : String)
  | conflict (code : String) (idempotencyStatus : String) (message : String)
  | dbError (code : String)
deriving DecidableEq, Repr

/-- The `code` property the `catch` block reads off a thrown error.  Only
Prisma driver errors carry one. -/
def AppError.prismaCode : AppError → Option String
  | .dbError c => some c
  | _ => none

/-- `IDEMPOTENCY_CONFLICT_MESSAGE` from the service. -/
def idempotencyConflictMessage : String :=
  "A request with this idempotency key is already in progress. Retry after a short delay."

/-- The `ConflictException` body thrown for an in-progress idempotency key. -/
def idempotencyInProgress : AppError :=
  .conflict "IDEMPOTENCY_IN_PROGRESS" "PROCESSING" idempotencyConflictMessage

/-- `BadRequestException('Insufficient balance')` thrown by `doTransfer` and
`doWithdrawal`. -/
def insufficientBalance : AppError := .badRequest "Insufficient balance"

/-- The response wrapper `IdempotencyResponse<T>`: result plus the literal
union `'CREATED' | 'COMPLETED'` (modelled as the corresponding string). -/
structure IdemResponse where
  result : CreateTransactionResult
  idempotencyStatus : String
deriving DecidableEq, Repr

/-- `prisma.account.findUnique({ where: { id, userId } })`: lookup filtered
by both the account id and the owning user. -/
def findAccountByIdAndUser (db : DB) (id userId : String) : Option Account :=
  db.accounts.find? (fun a => a.id == id && a.userId == userId)

/-- `prisma.account.findUnique({ where: { id } })`: lookup by id only. -/
def findAccountById (db : DB) (id : String) : Option Account :=
  db.accounts.find? (fun a => a.id == id)

/-- `prisma.idempotencyRecord.findUnique({ where: { userId_idempotencyKey } })`. -/
def findIdemRecord (db : DB) (userId idempotencyKey : String) :
    Option IdempotencyRecord :=
  db.idempotencyRecords.find?
    (fun r => r.userId == userId && r.idempotencyKey == idempotencyKey)

/-- `prisma.account.update({ where: { id }, data: { balanceCents: { increment: delta } } })`
(a decrement is an increment by the negated amount). -/
def updateBalance (db : DB) (accountId : String) (delta : Int) : DB :=
  { db with
    accounts := db.accounts.map (fun a =>
      if a.id = accountId then { a with balanceCents := a.balanceCents + delta }
      else a) }

/-- `tx.idempotencyRecord.create({ data: { userId, idempotencyKey, status: PROCESSING } })`. -/
def addIdemRecord (db : DB) (userId idempotencyKey : String) : DB :=
  { db with
    idempotencyRecords := db.idempotencyRecords ++
      [{ userId := userId
         idempotencyKey := idempotencyKey
         status := .PROCESSING
         responsePayload := none }] }

/-- `tx.idempotencyRecord.update({ where: { userId_idempotencyKey }, data: { status: COMPLETED, responsePayload } })`. -/
def completeIdemRecord (db : DB) (userId idempotencyKey : String)
    (payload : CreateTransactionResult) : DB :=
  { db with
    idempotencyRecords := db.idempotencyRecords.map (fun r =>
      if r.userId == userId && r.idempotencyKey == idempotencyKey then
        { r with status := .COMPLETED, responsePayload := some payload }
      else r) }

/-- `CreateTransferDto` (after DTO validation/transform). -/
structure CreateTransferDto where
  fromAccountId : String
  toAccountId : String
  amountCents : Int
  transactionNote : Option String
deriving DecidableEq, Repr

/-- `CreateDepositDto`. -/
structure CreateDepositDto where
  accountId : String
  amountCents : Int
  transactionNote : Option String
deriving DecidableEq, Repr

/-- `CreateWithdrawalDto`. -/
structure CreateWithdrawalDto where
  accountId : String
  amountCents : Int
  transactionNote : Option String
deriving DecidableEq, Repr

/-- `TransactionsService.doTransfer`, run inside the idempotent transaction:
load the from-account filtered by `(id, userId)`, check the balance, load
the to-account by id only, insert the two legs, then decrement / increment
the two balances. -/
def doTransfer (db : DB) (userId : String) (dto : CreateTransferDto) :
    Except AppError (DB × CreateTransferResult) :=
  match findAccountByIdAndUser db dto.fromAccountId userId with
  | none => .error (.notFound "From account not found")
  | some fromAccount =>
    if fromAccount.balanceCents < dto.amountCents then
      .error insufficientBalance
    else
      match findAccountById db dto.toAccountId with
      | none => .error (.notFound "To account not found")
      | some toAccount =>
        let transferId := db.nextId
        let fromTxn : Txn :=
          { id := db.nextId + 1
            accountId := fromAccount.id
            amountCents := -dto.amountCents
            transferId := transferId
            transactionNote := dto.transactionNote
            status := .COMPLETED
            type := .TRANSFER }
        let toTxn : Txn :=
          { id := db.nextId + 2
            accountId := toAccount.id
            amountCents := dto.amountCents
            transferId := transferId
            transactionNote := dto.transactionNote
            status := .COMPLETED
            type := .TRANSFER }
        let db1 : DB :=
          { db with
            transactions := db.transactions ++ [fromTxn, toTxn]
            nextId := db.nextId + 3 }
        let db2 := updateBalance db1 fromAccount.id (-dto.amountCents)
        let db3 := updateBalance db2 toAccount.id dto.amountCents
        .ok (db3,
          { transferId := transferId
            fromTransaction := toTransactionSummary fromTxn
            toTransaction := toTransactionSummary toTxn })

/-- `TransactionsService.doDeposit`: load the account filtered by
`(id, userId)`, insert the single credit leg, increment the balance.
No balance-sufficiency check. -/
def doDeposit (db : DB) (userId : String) (dto : CreateDepositDto) :
    Except AppError (DB × CreateDepositResult) :=
  match findAccountByIdAndUser db dto.accountId userId with
  | none => .error (.notFound "Account not found")
  | some account =>
    let transferId := db.nextId
    let txn : Txn :=
      { id := db.nextId + 1
        accountId := account.id
        amountCents := dto.amountCents
        transferId := transferId
        transactionNote := dto.transactionNote
        status := .COMPLETED
        type := .DEPOSIT }
    let db1 : DB :=
      { db with
        transactions := db.transactions ++ [txn]
        nextId := db.nextId + 2 }
    let db2 := updateBalance db1 account.id dto.amountCents
    .ok (db2, { transferId := transferId, transaction := toTransactionSummary txn })

/-- `TransactionsService.doWithdrawal`: load the account filtered by
`(id, userId)`, check the balance, insert the single debit leg, decrement
the balance. -/
def doWithdrawal (db : DB) (userId : String) (dto : CreateWithdrawalDto) :
    Except AppError (DB × CreateWithdrawalResult) :=
  match findAccountByIdAndUser db dto.accountId userId with
  | none => .error (.notFound "Account not found")
  | some account =>
    if account.balanceCents < dto.amountCents then
      .error insufficientBalance
    else
      let transferId := db.nextId
      let txn : Txn :=
        { id := db.nextId + 1
          accountId := account.id
          amountCents := -dto.amountCents
          transferId := transferId
          transactionNote := dto.transactionNote
          status := .COMPLETED
          type := .WITHDRAWAL }
      let db1 : DB :=
        { db with
          transactions := db.transactions ++ [txn]
          nextId := db.nextId + 2 }
      let db2 := updateBalance db1 account.id (-dto.amountCents)
      .ok (db2, { transferId := transferId, transaction := toTransactionSummary txn })

/-- The body of `prisma.$transaction` in `withIdempotency`: insert the
PROCESSING record (its unique constraint on `(userId, idempotencyKey)`
raises `P2002` if a row already exists), run the worker on the same
transactional state, then mark the record COMPLETED with the payload.
An error leaves the caller's database untouched (rollback). -/
def txBody (db : DB) (userId idempotencyKey : String)
    (worker : DB → Except AppError (DB × CreateTransactionResult)) :
    Except AppError (DB × CreateTransactionResult) :=
  if (findIdemRecord db userId idempotencyKey).isSome then
    .error (.dbError "P2002")
  else
    match worker (addIdemRecord db userId idempotencyKey) with
    | .error e => .error e
    | .ok (db2, result) =>
      .ok (completeIdemRecord db2 userId idempotencyKey result, result)

/-- The `try`/`catch` around the transaction in `withIdempotency`: a fresh
run returns the result with status `'CREATED'`; an error whose `code` is
`'P2002'` triggers a re-read of the record (replay if COMPLETED with a
payload, otherwise `ConflictException`); any other error is rethrown
unchanged. -/
def runIdemTransaction (db : DB) (userId idempotencyKey : String)
    (worker : DB → Except AppError (DB × CreateTransactionResult)) :
    Except AppError (DB × IdemResponse) :=
  match txBody db userId idempotencyKey worker with
  | .ok (db2, result) =>
    .ok (db2, { result := result, idempotencyStatus := "CREATED" })
  | .error e =>
    if e.prismaCode = some "P2002" then
      match findIdemRecord db userId idempotencyKey with
      | some record =>
        match record.status, record.responsePayload with
        | .COMPLETED, some payload =>
          .ok (db, { result := payload, idempotencyStatus := "COMPLETED" })
        | _, _ => .error idempotencyInProgress
      | none => .error idempotencyInProgress
    else .error e

/-- `TransactionsService.withIdempotency`: pre-check the record for
`(userId, idempotencyKey)` — replay a COMPLETED record with a payload
(status literal `'COMPLETED'`), reject a PROCESSING record with the
conflict error, otherwise run the transactional attempt. -/
def withIdempotency (db : DB) (userId idempotencyKey : String)
    (worker : DB → Except AppError (DB × CreateTransactionResult)) :
    Except AppError (DB × IdemResponse) :=
  match findIdemRecord db userId idempotencyKey with
  | some existing =>
    match existing.status, existing.responsePayload with
    | .COMPLETED, some payload =>
      .ok (db, { result := payload, idempotencyStatus := "COMPLETED" })
    | .PROCESSING, _ => .error idempotencyInProgress
    | .COMPLETED, none => runIdemTransaction db userId idempotencyKey worker
  | none => runIdemTransaction db userId idempotencyKey worker

/-- Whitespace as recognised by JavaScript's `String.prototype.trim` (the
common ASCII whitespace characters; the service calls
`idempotencyKey.trim()`). -/
def isJsWhitespace (c : Char) : Bool :=
  c = ' ' || c = '\t' || c = '\n' || c = '\r' || c = '\x0b' || c = '\x0c'

/-- `String.prototype.trim`: strip leading and trailing whitespace. -/
def jsTrim (s : String) : String :=
  String.mk (((s.data.dropWhile isJsWhitespace).reverse.dropWhile isJsWhitespace).reverse)

/-- Message of the `BadRequestException` for a missing idempotency key. -/
def requiredKeyMessage : String := "Idempotency-Key header is required"

/-- Message of the `BadRequestException` for a same-account transfer. -/
def sameAccountMessage : String := "From account and to account cannot be the same"

/-- Message of the `BadRequestException` for a non-positive amount. -/
def amountNotPositiveMessage (n : Int) : String :=
  s!"Amount {n} cannot be less than or equal to 0"

/-- The worker `createTransfer` hands to `withIdempotency`
(`async (tx) => this.doTransfer(tx, authedUser.id, dto)`), its result
injected into the result union. -/
def transferWorker (userId : String) (dto : CreateTransferDto) :
    DB → Except AppError (DB × CreateTransactionResult) :=
  fun d =>
    match doTransfer d userId dto with
    | .error e => .error e
    | .ok (d2, r) => .ok (d2, .transfer r)

/-- The worker `createDeposit` hands to `withIdempotency`. -/
def depositWorker (userId : String) (dto : CreateDepositDto) :
    DB → Except AppError (DB × CreateTransactionResult) :=
  fun d =>
    match doDeposit d userId dto with
    | .error e => .error e
    | .ok (d2, r) => .ok (d2, .deposit r)

/-- The worker `createWithdrawal` hands to `withIdempotency`. -/
def withdrawalWorker (userId : String) (dto : CreateWithdrawalDto) :
    DB → Except AppError (DB × CreateTransactionResult) :=
  fun d =>
    match doWithdrawal d userId dto with
    | .error e => .error e
    | .ok (d2, r) => .ok (d2, .withdrawal r)

/-- `TransactionsService.createTransfer`: validate the idempotency key
(trimmed; empty or whitespace-only rejected), the distinct-accounts rule and
the positive amount, then run `doTransfer` under `withIdempotency` with the
trimmed key. -/
def createTransfer (db : DB) (userId : String) (dto : CreateTransferDto)
    (idempotencyKey : String) : Except AppError (DB × IdemResponse) :=
  if jsTrim idempotencyKey = "" then .error (.badRequest requiredKeyMessage)
  else
    let key := jsTrim idempotencyKey
    if dto.fromAccountId = dto.toAccountId then
      .error (.badRequest sameAccountMessage)
    else if dto.amountCents ≤ 0 then
      .error (.badRequest (amountNotPositiveMessage dto.amountCents))
    else
      withIdempotency db userId key (transferWorker userId dto)

/-- `TransactionsService.createDeposit`: validate the trimmed idempotency
key and the positive amount, then run `doDeposit` under `withIdempotency`. -/
def createDeposit (db : DB) (userId : String) (dto : CreateDepositDto)
    (idempotencyKey : String) : Except AppError (DB × IdemResponse) :=
  if jsTrim idempotencyKey = "" then .error (.badRequest requiredKeyMessage)
  else
    let key := jsTrim idempotencyKey
    if dto.amountCents ≤ 0 then
      .error (.badRequest (amountNotPositiveMessage dto.amountCents))
    else
      withIdempotency db userId key (depositWorker userId dto)

/-- `TransactionsService.createWithdrawal`: validate the trimmed idempotency
key and the positive amount, then run `doWithdrawal` under `withIdempotency`. -/
def createWithdrawal (db : DB) (userId : String) (dto : CreateWithdrawalDto)
    (idempotencyKey : String) : Except AppError (DB × IdemResponse) :=
  if jsTrim idempotencyKey = "" then .error (.badRequest requiredKeyMessage)
  else
    let key := jsTrim idempotencyKey
    if dto.amountCents ≤ 0 then
      .error (.badRequest (amountNotPositiveMessage dto.amountCents))
    else
      withIdempotency db userId key (withdrawalWorker userId dto)

/-- The database the caller observes after an `Except`-valued call: the new
state on success, the state it already had on an error (rollback). -/
def commitOf (db : DB) (out : Except AppError (DB × IdemResponse)) : DB :=
  match out with
  | .ok (d, _) => d
  | .error _ => db

/-- A debiting engine operation: a withdrawal or a transfer, as dispatched
to `doWithdrawal` / `doTransfer`. -/
inductive DebitOp where
  | withdrawal (userId : String) (dto : CreateWithdrawalDto)
  | transfer (userId : String) (dto : CreateTransferDto)
deriving DecidableEq, Repr

/-- The `amountCents` of a debiting operation. -/
def DebitOp.amountCents : DebitOp → Int
  | .withdrawal _ dto => dto.amountCents
  | .transfer _ dto => dto.amountCents

/-- The committed database after one debiting engine operation: the new
state if the atomic unit of work succeeds, the old state if it rolls back. -/
def commitDebitOp (db : DB) : DebitOp → DB
  | .withdrawal u dto =>
    match doWithdrawal db u dto with
    | .ok (db2, _) => db2
    | .error _ => db
  | .transfer u dto =>
    match doTransfer db u dto with
    | .ok (db2, _) => db2
    | .error _ => db

/-- The committed database after a sequence of debiting operations. -/
def runDebitOps (db : DB) : List DebitOp → DB
  | [] => db
  | op :: rest => runDebitOps (commitDebitOp db op) rest

/-- Every account balance in the database is non-negative. -/
def AllBalancesNonneg (db : DB) : Prop :=
  ∀ a ∈ db.accounts, 0 ≤ a.balanceCents

/-- Account ids are pairwise distinct (`id` is the table's primary key). -/
def UniqueAccountIds (db : DB) : Prop :=
  (db.accounts.map Account.id).Nodup

instance decAllBalancesNonneg (db : DB) : Decidable (AllBalancesNonneg db) :=
  inferInstanceAs (Decidable (∀ a ∈ db.accounts, 0 ≤ a.balanceCents))

instance decUniqueAccountIds (db : DB) : Decidable (UniqueAccountIds db) :=
  inferInstanceAs (Decidable ((db.accounts.map Account.id).Nodup))

lemma findAccountByIdAndUser_eq_some {db : DB} {id u : String} {a : Account}
    (h : findAccountByIdAndUser db id u = some a) :
    a ∈ db.accounts ∧ a.id = id ∧ a.userId = u := by
  have hmem := List.mem_of_find?_eq_some h
  have hp := List.find?_some h
  simp only [Bool.and_eq_true, beq_iff_eq] at hp
  exact ⟨hmem, hp.1, hp.2⟩

lemma findAccountById_eq_some {db : DB} {id : String} {a : Account}
    (h : findAccountById db id = some a) :
    a ∈ db.accounts ∧ a.id = id := by
  have hmem := List.mem_of_find?_eq_some h
  have hp := List.find?_some h
  simp only [beq_iff_eq] at hp
  exact ⟨hmem, hp⟩

lemma account_eq_of_id_eq {db : DB} (hu : UniqueAccountIds db) {a b : Account}
    (ha : a ∈ db.accounts) (hb : b ∈ db.accounts) (hid : a.id = b.id) :
    a = b :=
  List.inj_on_of_nodup_map hu ha hb hid

lemma updateBalance_ids (db : DB) (i : String) (δ : Int) :
    (updateBalance db i δ).accounts.map Account.id = db.accounts.map Account.id := by
  simp only [updateBalance, List.map_map]
  refine List.map_congr_left (fun a _ => ?_)
  simp only [Function.comp]
  split <;> rfl

lemma updateBalance_accounts (db : DB) (i : String) (δ : Int) :
    (updateBalance db i δ).accounts =
      db.accounts.map (fun a =>
        if a.id = i then { a with balanceCents := a.balanceCents + δ } else a) := rfl

lemma uniqueIds_updateBalance {db : DB} (i : String) (δ : Int)
    (hu : UniqueAccountIds db) : UniqueAccountIds (updateBalance db i δ) := by
  unfold UniqueAccountIds at hu ⊢
  rw [updateBalance_ids]
  exact hu

lemma updateBalance_nonneg {db : DB} {i : String} {δ : Int}
    (hnn : AllBalancesNonneg db)
    (h : ∀ a ∈ db.accounts, a.id = i → 0 ≤ a.balanceCents + δ) :
    AllBalancesNonneg (updateBalance db i δ) := by
  intro b hb
  rw [updateBalance_accounts] at hb
  rcases List.mem_map.mp hb with ⟨c, hc, rfl⟩
  by_cases hid : c.id = i
  · simpa [hid] using h c hc hid
  · simpa [hid] using hnn c hc

lemma mem_updateBalance_nonneg {db : DB} {i : String} {δ : Int}
    (hδ : 0 ≤ δ) (hnn : AllBalancesNonneg db) :
    AllBalancesNonneg (updateBalance db i δ) :=
  updateBalance_nonneg hnn (fun a ha _ => by have := hnn a ha; omega)

/-- The debit leg row written by `doWithdrawal`. -/
def withdrawalTxn (db : DB) (a : Account) (dto : CreateWithdrawalDto) : Txn :=
  { id := db.nextId + 1
    accountId := a.id
    amountCents := -dto.amountCents
    transferId := db.nextId
    transactionNote := dto.transactionNote
    status := .COMPLETED
    type := .WITHDRAWAL }

/-- The database committed by a successful `doWithdrawal`. -/
def withdrawalCommit (db : DB) (a : Account) (dto : CreateWithdrawalDto) : DB :=
  updateBalance
    { db with
      transactions := db.transactions ++ [withdrawalTxn db a dto]
      nextId := db.nextId + 2 }
    a.id (-dto.amountCents)

lemma doWithdrawal_notFound_eq {db : DB} {u : String} {dto : CreateWithdrawalDto}
    (hfind : findAccountByIdAndUser db dto.accountId u = none) :
    doWithdrawal db u dto = .error (.notFound "Account not found") := by
  simp [doWithdrawal, hfind]

lemma doWithdrawal_insufficient_eq {db : DB} {u : String} {dto : CreateWithdrawalDto}
    {a : Account} (hfind : findAccountByIdAndUser db dto.accountId u = some a)
    (hbal : a.balanceCents < dto.amountCents) :
    doWithdrawal db u dto = .error insufficientBalance := by
  simp [doWithdrawal, hfind, hbal]

lemma doWithdrawal_ok_eq {db : DB} {u : String} {dto : CreateWithdrawalDto}
    {a : Account} (hfind : findAccountByIdAndUser db dto.accountId u = some a)
    (hbal : ¬ a.balanceCents < dto.amountCents) :
    doWithdrawal db u dto = .ok (withdrawalCommit db a dto,
      { transferId := db.nextId
        transaction := toTransactionSummary (withdrawalTxn db a dto) }) := by
  simp [doWithdrawal, hfind, hbal, withdrawalCommit, withdrawalTxn]

/-- The credit leg row written by `doDeposit`. -/
def depositTxn (db : DB) (a : Account) (dto : CreateDepositDto) : Txn :=
  { id := db.nextId + 1
    accountId := a.id
    amountCents := dto.amountCents
    transferId := db.nextId
    transactionNote := dto.transactionNote
    status := .COMPLETED
    type := .DEPOSIT }

/-- The database committed by a successful `doDeposit`. -/
def depositCommit (db : DB) (a : Account) (dto : CreateDepositDto) : DB :=
  updateBalance
    { db with
      transactions := db.transactions ++ [depositTxn db a dto]
      nextId := db.nextId + 2 }
    a.id dto.amountCents

lemma doDeposit_notFound_eq {db : DB} {u : String} {dto : CreateDepositDto}
    (hfind : findAccountByIdAndUser db dto.accountId u = none) :
    doDeposit db u dto = .error (.notFound "Account not found") := by
  simp [doDeposit, hfind]

lemma doDeposit_ok_eq {db : DB} {u : String} {dto : CreateDepositDto}
    {a : Account} (hfind : findAccountByIdAndUser db dto.accountId u = some a) :
    doDeposit db u dto = .ok (depositCommit db a dto,
      { transferId := db.nextId
        transaction := toTransactionSummary (depositTxn db a dto) }) := by
  simp [doDeposit, hfind, depositCommit, depositTxn]

/-- The debit leg row written by `doTransfer` on the from-account. -/
def transferFromTxn (db : DB) (fa : Account) (dto : CreateTransferDto) : Txn :=
  { id := db.nextId + 1
    accountId := fa.id
    amountCents := -dto.amountCents
    transferId := db.nextId
    transactionNote := dto.transactionNote
    status := .COMPLETED
    type := .TRANSFER }

/-- The credit leg row written by `doTransfer` on the to-account. -/
def transferToTxn (db : DB) (ta : Account) (dto : CreateTransferDto) : Txn :=
  { id := db.nextId + 2
    accountId := ta.id
    amountCents := dto.amountCents
    transferId := db.nextId
    transactionNote := dto.transactionNote
    status := .COMPLETED
    type := .TRANSFER }

/-- The database committed by a successful `doTransfer`. -/
def transferCommit (db : DB) (fa ta : Account) (dto : CreateTransferDto) : DB :=
  updateBalance
    (updateBalance
      { db with
        transactions := db.transactions ++ [transferFromTxn db fa dto, transferToTxn db ta dto]
        nextId := db.nextId + 3 }
      fa.id (-dto.amountCents))
    ta.id dto.amountCents

lemma doTransfer_fromNotFound_eq {db : DB} {u : String} {dto : CreateTransferDto}
    (hfrom : findAccountByIdAndUser db dto.fromAccountId u = none) :
    doTransfer db u dto = .error (.notFound "From account not found") := by
  simp [doTransfer, hfrom]

lemma doTransfer_insufficient_eq {db : DB} {u : String} {dto : CreateTransferDto}
    {fa : Account} (hfrom : findAccountByIdAndUser db dto.fromAccountId u = some fa)
    (hbal : fa.balanceCents < dto.amountCents) :
    doTransfer db u dto = .error insufficientBalance := by
  simp [doTransfer, hfrom, hbal]

lemma doTransfer_toNotFound_eq {db : DB} {u : String} {dto : CreateTransferDto}
    {fa : Account} (hfrom : findAccountByIdAndUser db dto.fromAccountId u = some fa)
    (hbal : ¬ fa.balanceCents < dto.amountCents)
    (hto : findAccountById db dto.toAccountId = none) :
    doTransfer db u dto = .error (.notFound "To account not found") := by
  simp [doTransfer, hfrom, hbal, hto]

lemma doTransfer_ok_eq {db : DB} {u : String} {dto : CreateTransferDto}
    {fa ta : Account} (hfrom : findAccountByIdAndUser db dto.fromAccountId u = some fa)
    (hbal : ¬ fa.balanceCents < dto.amountCents)
    (hto : findAccountById db dto.toAccountId = some ta) :
    doTransfer db u dto = .ok (transferCommit db fa ta dto,
      { transferId := db.nextId
        fromTransaction := toTransactionSummary (transferFromTxn db fa dto)
        toTransaction := toTransactionSummary (transferToTxn db ta dto) }) := by
  simp [doTransfer, hfrom, hbal, hto, transferCommit, transferFromTxn, transferToTxn]

lemma withdrawalCommit_accounts (db : DB) (a : Account) (dto : CreateWithdrawalDto) :
    (withdrawalCommit db a dto).accounts = db.accounts.map (fun b =>
      if b.id = a.id then { b with balanceCents := b.balanceCents + -dto.amountCents }
      else b) := rfl

lemma depositCommit_accounts (db : DB) (a : Account) (dto : CreateDepositDto) :
    (depositCommit db a dto).accounts = db.accounts.map (fun b =>
      if b.id = a.id then { b with balanceCents := b.balanceCents + dto.amountCents }
      else b) := rfl

lemma transferCommit_accounts (db : DB) (fa ta : Account) (dto : CreateTransferDto) :
    (transferCommit db fa ta dto).accounts = (db.accounts.map (fun b =>
      if b.id = fa.id then { b with balanceCents := b.balanceCents + -dto.amountCents }
      else b)).map (fun b =>
      if b.id = ta.id then { b with balanceCents := b.balanceCents + dto.amountCents }
      else b) := rfl

lemma commitDebitOp_nonneg {db : DB} (op : DebitOp)
    (hnn : AllBalancesNonneg db) (hu : UniqueAccountIds db)
    (hpos : 0 < op.amountCents) :
    AllBalancesNonneg (commitDebitOp db op) ∧ UniqueAccountIds (commitDebitOp db op) := by
  cases op with
  | withdrawal u dto =>
    cases hfind : findAccountByIdAndUser db dto.accountId u with
    | none =>
      have h : commitDebitOp db (.withdrawal u dto) = db := by
        simp [commitDebitOp, doWithdrawal_notFound_eq hfind]
      rw [h]; exact ⟨hnn, hu⟩
    | some a =>
      by_cases hbal : a.balanceCents < dto.amountCents
      · have h : commitDebitOp db (.withdrawal u dto) = db := by
          simp [commitDebitOp, doWithdrawal_insufficient_eq hfind hbal]
        rw [h]; exact ⟨hnn, hu⟩
      · have hmem := (findAccountByIdAndUser_eq_some hfind).1
        have h : commitDebitOp db (.withdrawal u dto) = withdrawalCommit db a dto := by
          simp [commitDebitOp, doWithdrawal_ok_eq hfind hbal]
        rw [h]
        simp only [not_lt] at hbal
        constructor
        · refine updateBalance_nonneg hnn (fun c hc hid => ?_)
          have hca : c = a := account_eq_of_id_eq hu hc hmem hid
          rw [hca]
          omega
        · exact uniqueIds_updateBalance _ _ hu
  | transfer u dto =>
    cases hfrom : findAccountByIdAndUser db dto.fromAccountId u with
    | none =>
      have h : commitDebitOp db (.transfer u dto) = db := by
        simp [commitDebitOp, doTransfer_fromNotFound_eq hfrom]
      rw [h]; exact ⟨hnn, hu⟩
    | some fa =>
      by_cases hbal : fa.balanceCents < dto.amountCents
      · have h : commitDebitOp db (.transfer u dto) = db := by
          simp [commitDebitOp, doTransfer_insufficient_eq hfrom hbal]
        rw [h]; exact ⟨hnn, hu⟩
      · cases hto : findAccountById db dto.toAccountId with
        | none =>
          have h : commitDebitOp db (.transfer u dto) = db := by
            simp [commitDebitOp, doTransfer_toNotFound_eq hfrom hbal hto]
          rw [h]; exact ⟨hnn, hu⟩
        | some ta =>
          have hfmem := (findAccountByIdAndUser_eq_some hfrom).1
          have h : commitDebitOp db (.transfer u dto) = transferCommit db fa ta dto := by
            simp [commitDebitOp, doTransfer_ok_eq hfrom hbal hto]
          rw [h]
          have hamt : 0 < dto.amountCents := hpos
          simp only [not_lt] at hbal
          have hdebit : AllBalancesNonneg (updateBalance
              { db with
                transactions := db.transactions ++
                  [transferFromTxn db fa dto, transferToTxn db ta dto]
                nextId := db.nextId + 3 }
              fa.id (-dto.amountCents)) := by
            refine updateBalance_nonneg hnn (fun c hc hid => ?_)
            have hca : c = fa := account_eq_of_id_eq hu hc hfmem hid
            rw [hca]
            omega
          constructor
          · exact mem_updateBalance_nonneg (le_of_lt hamt) hdebit
          · exact uniqueIds_updateBalance _ _ (uniqueIds_updateBalance _ _ hu)

lemma runDebitOps_nonneg (ops : List DebitOp) :
    ∀ db : DB, AllBalancesNonneg db → UniqueAccountIds db →
      (∀ op ∈ ops, 0 < op.amountCents) →
      AllBalancesNonneg (runDebitOps db ops) := by
  induction ops with
  | nil => intro db hnn _ _; simpa [runDebitOps] using hnn
  | cons op rest ih =>
    intro db hnn hu hpos
    have h := commitDebitOp_nonneg op hnn hu (hpos op (List.mem_cons_self op rest))
    exact ih (commitDebitOp db op) h.1 h.2
      (fun o ho => hpos o (List.mem_cons_of_mem op ho))

/-- C1: for every account and every sequence of withdrawal and transfer
operations (with the positive amounts the public entry points enforce), no
committed state has `balanceCents < 0`; whenever `doWithdrawal` or
`doTransfer` is invoked on a state where the debited account's
`balanceCents` is at least `amountCents` the debit commits, and whenever
`balanceCents < amountCents` the operation fails with `InsufficientBalance`
and the committed state — every account balance and every `Transaction`
row — is unchanged. -/
theorem c1_balance_nonnegativity :
    (∀ (db : DB) (ops : List DebitOp),
      AllBalancesNonneg db → UniqueAccountIds db →
      (∀ op ∈ ops, 0 < op.amountCents) →
      AllBalancesNonneg (runDebitOps db ops))
    ∧ (∀ (db : DB) (u : String) (dto : CreateWithdrawalDto) (a : Account),
      findAccountByIdAndUser db dto.accountId u = some a →
      dto.amountCents ≤ a.balanceCents →
      doWithdrawal db u dto = .ok (withdrawalCommit db a dto,
        { transferId := db.nextId
          transaction := toTransactionSummary (withdrawalTxn db a dto) }))
    ∧ (∀ (db : DB) (u : String) (dto : CreateWithdrawalDto) (a : Account),
      findAccountByIdAndUser db dto.accountId u = some a →
      a.balanceCents < dto.amountCents →
      doWithdrawal db u dto = .error insufficientBalance ∧
      commitDebitOp db (.withdrawal u dto) = db)
    ∧ (∀ (db : DB) (u : String) (dto : CreateTransferDto) (fa ta : Account),
      findAccountByIdAndUser db dto.fromAccountId u = some fa →
      dto.amountCents ≤ fa.balanceCents →
      findAccountById db dto.toAccountId = some ta →
      doTransfer db u dto = .ok (transferCommit db fa ta dto,
        { transferId := db.nextId
          fromTransaction := toTransactionSummary (transferFromTxn db fa dto)
          toTransaction := toTransactionSummary (transferToTxn db ta dto) }))
    ∧ (∀ (db : DB) (u : String) (dto : CreateTransferDto) (fa : Account),
      findAccountByIdAndUser db dto.fromAccountId u = some fa →
      fa.balanceCents < dto.amountCents →
      doTransfer db u dto = .error insufficientBalance ∧
      commitDebitOp db (.transfer u dto) = db) := by
  refine ⟨?_, ?_, ?_, ?_, ?_⟩
  · intro db ops hnn hu hpos
    exact runDebitOps_nonneg ops db hnn hu hpos
  · intro db u dto a hfind hbal
    exact doWithdrawal_ok_eq hfind (not_lt.mpr hbal)
  · intro db u dto a hfind hbal
    refine ⟨doWithdrawal_insufficient_eq hfind hbal, ?_⟩
    simp [commitDebitOp, doWithdrawal_insufficient_eq hfind hbal]
  · intro db u dto fa ta hfrom hbal hto
    exact doTransfer_ok_eq hfrom (not_lt.mpr hbal) hto
  · intro db u dto fa hfrom hbal
    refine ⟨doTransfer_insufficient_eq hfrom hbal, ?_⟩
    simp [commitDebitOp, doTransfer_insufficient_eq hfrom hbal]

/-- A small concrete database used by several witnesses: one account "A"
owned by "u" with balance 100 cents, one account "B" owned by "v" with
balance 0. -/
def dbW : DB :=
  { accounts := [{ id := "A", userId := "u", balanceCents := 100 },
                 { id := "B", userId := "v", balanceCents := 0 }]
    transactions := []
    idempotencyRecords := []
    nextId := 0 }

/-- Witness for C1 at concrete inputs: a withdrawal of 40 then a transfer
of 60 keep all balances non-negative, and a withdrawal of 150 from the
100-cent account fails with `InsufficientBalance` leaving the state
unchanged. -/
theorem c1_balance_nonnegativity_witness :
    AllBalancesNonneg (runDebitOps dbW
      [.withdrawal "u" { accountId := "A", amountCents := 40, transactionNote := none },
       .transfer "u" { fromAccountId := "A", toAccountId := "B", amountCents := 60,
                       transactionNote := none }]) ∧
    (doWithdrawal dbW "u" { accountId := "A", amountCents := 150, transactionNote := none } =
      .error insufficientBalance ∧
     commitDebitOp dbW (.withdrawal "u"
       { accountId := "A", amountCents := 150, transactionNote := none }) = dbW) :=
  ⟨c1_balance_nonnegativity.1 dbW _ (by decide) (by decide) (by decide),
   c1_balance_nonnegativity.2.2.1 dbW "u"
     { accountId := "A", amountCents := 150, transactionNote := none }
     { id := "A", userId := "u", balanceCents := 100 } (by decide) (by decide)⟩

lemma find?_id_map {f : Account → Account} (hf : ∀ a, (f a).id = a.id)
    (l : List Account) (x : String) :
    (l.map f).find? (fun a => a.id == x) = (l.find? (fun a => a.id == x)).map f := by
  induction l with
  | nil => rfl
  | cons a l ih =>
    by_cases h : a.id = x
    · have h1 : (a.id == x) = true := beq_iff_eq.mpr h
      have h2 : ((f a).id == x) = true := beq_iff_eq.mpr (by rw [hf a]; exact h)
      simp [List.find?_cons, h1, h2]
    · have h1 : (a.id == x) = false := beq_eq_false_iff_ne.mpr h
      have h2 : ((f a).id == x) = false := beq_eq_false_iff_ne.mpr (by rw [hf a]; exact h)
      simp [List.find?_cons, h1, h2, ih]

lemma findAccountById_updateBalance (db : DB) (i : String) (δ : Int) (x : String) :
    findAccountById (updateBalance db i δ) x =
      (findAccountById db x).map (fun a =>
        if a.id = i then { a with balanceCents := a.balanceCents + δ } else a) := by
  unfold findAccountById
  rw [updateBalance_accounts]
  exact find?_id_map (fun a => by split <;> rfl) db.accounts x

lemma findAccountById_of_mem {db : DB} (hu : UniqueAccountIds db) {a : Account}
    (hmem : a ∈ db.accounts) : findAccountById db a.id = some a := by
  cases hfind : findAccountById db a.id with
  | none =>
    have hsome : (db.accounts.find? (fun b => b.id == a.id)).isSome := by
      rw [List.find?_isSome]
      exact ⟨a, hmem, beq_iff_eq.mpr rfl⟩
    rw [show db.accounts.find? (fun b => b.id == a.id) = none from hfind] at hsome
    simp at hsome
  | some m =>
    have hm := findAccountById_eq_some hfind
    rw [account_eq_of_id_eq hu hm.1 hmem hm.2]

/-- C8: `doTransfer` loads the from-account filtered by both id and owner
(failing with `AccountNotFound` when no such owned account exists), then
checks the balance (failing with `InsufficientBalance` when it is short),
and loads the to-account by id only with no ownership restriction (failing
with `AccountNotFound` only when no account with that id exists); when all
three checks pass it succeeds, even when the to-account belongs to another
actor. -/
theorem c8_transfer_lookup_semantics :
    (∀ (db : DB) (id u : String) (a : Account),
      findAccountByIdAndUser db id u = some a → a.id = id ∧ a.userId = u)
    ∧ (∀ (db : DB) (u : String) (dto : CreateTransferDto),
      findAccountByIdAndUser db dto.fromAccountId u = none →
      doTransfer db u dto = .error (.notFound "From account not found"))
    ∧ (∀ (db : DB) (u : String) (dto : CreateTransferDto) (fa : Account),
      findAccountByIdAndUser db dto.fromAccountId u = some fa →
      fa.balanceCents < dto.amountCents →
      doTransfer db u dto = .error insufficientBalance)
    ∧ (∀ (db : DB) (u : String) (dto : CreateTransferDto) (fa : Account),
      findAccountByIdAndUser db dto.fromAccountId u = some fa →
      ¬ fa.balanceCents < dto.amountCents →
      findAccountById db dto.toAccountId = none →
      doTransfer db u dto = .error (.notFound "To account not found"))
    ∧ (∀ (db : DB) (u : String) (dto : CreateTransferDto) (fa ta : Account),
      findAccountByIdAndUser db dto.fromAccountId u = some fa →
      ¬ fa.balanceCents < dto.amountCents →
      findAccountById db dto.toAccountId = some ta →
      ∃ p, doTransfer db u dto = .ok p) := by
  refine ⟨?_, ?_, ?_, ?_, ?_⟩
  · intro db id u a h
    exact (findAccountByIdAndUser_eq_some h).2
  · intro db u dto h
    exact doTransfer_fromNotFound_eq h
  · intro db u dto fa hfrom hbal
    exact doTransfer_insufficient_eq hfrom hbal
  · intro db u dto fa hfrom hbal hto
    exact doTransfer_toNotFound_eq hfrom hbal hto
  · intro db u dto fa ta hfrom hbal hto
    exact ⟨_, doTransfer_ok_eq hfrom hbal hto⟩

/-- Witness for C8: in `dbW` the from-lookup fails for an account the actor
does not own, the balance check fails for an amount above 100, and a
transfer from "A" (owned by "u") to "B" (owned by the other actor "v")
succeeds. -/
theorem c8_transfer_lookup_semantics_witness :
    (doTransfer dbW "u"
      { fromAccountId := "B", toAccountId := "A", amountCents := 10, transactionNote := none } =
      .error (.notFound "From account not found")) ∧
    (doTransfer dbW "u"
      { fromAccountId := "A", toAccountId := "B", amountCents := 150, transactionNote := none } =
      .error insufficientBalance) ∧
    (doTransfer dbW "u"
      { fromAccountId := "A", toAccountId := "C", amountCents := 10, transactionNote := none } =
      .error (.notFound "To account not found")) ∧
    (∃ p, doTransfer dbW "u"
      { fromAccountId := "A", toAccountId := "B", amountCents := 10, transactionNote := none } =
      .ok p) :=
  ⟨c8_transfer_lookup_semantics.2.1 dbW "u" _ (by decide),
   c8_transfer_lookup_semantics.2.2.1 dbW "u" _
     { id := "A", userId := "u", balanceCents := 100 } (by decide) (by decide),
   c8_transfer_lookup_semantics.2.2.2.1 dbW "u" _
     { id := "A", userId := "u", balanceCents := 100 } (by decide) (by decide) (by decide),
   c8_transfer_lookup_semantics.2.2.2.2 dbW "u" _
     { id := "A", userId := "u", balanceCents := 100 }
     { id := "B", userId := "v", balanceCents := 0 } (by decide) (by decide) (by decide)⟩

/-- All transfer ids already present in the transactions table are below the
fresh-id counter (the freshness invariant of the id supply standing in for
`randomUUID()`). -/
def TxnIdsBelow (db : DB) : Prop :=
  ∀ t ∈ db.transactions, t.transferId < db.nextId

instance decTxnIdsBelow (db : DB) : Decidable (TxnIdsBelow db) :=
  inferInstanceAs (Decidable (∀ t ∈ db.transactions, t.transferId < db.nextId))

/-- C2: a transfer with a positive amount between two distinct existing
accounts (the from-account owned by the actor, its balance sufficient)
creates exactly two `Transaction` rows appended in one atomic unit of work,
a debit leg of `-amount` on the from-account and a credit leg of `+amount`
on the to-account, both COMPLETED and of type TRANSFER and sharing one
freshly generated `transferId` unknown to every pre-existing row; the
from-balance drops by `amount`, the to-balance rises by `amount`, and the
returned result carries the `transferId` and the summaries of both legs. -/
theorem c2_transfer_creates_two_legs :
    ∀ (db : DB) (u : String) (dto : CreateTransferDto) (fa ta : Account),
      findAccountByIdAndUser db dto.fromAccountId u = some fa →
      dto.amountCents ≤ fa.balanceCents →
      findAccountById db dto.toAccountId = some ta →
      dto.fromAccountId ≠ dto.toAccountId →
      0 < dto.amountCents →
      UniqueAccountIds db →
      TxnIdsBelow db →
      ∃ db2 r, doTransfer db u dto = .ok (db2, r) ∧
        db2.transactions = db.transactions ++
          [transferFromTxn db fa dto, transferToTxn db ta dto] ∧
        (transferFromTxn db fa dto).amountCents = -dto.amountCents ∧
        (transferToTxn db ta dto).amountCents = dto.amountCents ∧
        (transferFromTxn db fa dto).accountId = dto.fromAccountId ∧
        (transferToTxn db ta dto).accountId = dto.toAccountId ∧
        (transferFromTxn db fa dto).status = .COMPLETED ∧
        (transferToTxn db ta dto).status = .COMPLETED ∧
        (transferFromTxn db fa dto).type = .TRANSFER ∧
        (transferToTxn db ta dto).type = .TRANSFER ∧
        (transferFromTxn db fa dto).transferId = r.transferId ∧
        (transferToTxn db ta dto).transferId = r.transferId ∧
        (∀ t ∈ db.transactions, t.transferId ≠ r.transferId) ∧
        findAccountById db2 dto.fromAccountId =
          some { fa with balanceCents := fa.balanceCents - dto.amountCents } ∧
        findAccountById db2 dto.toAccountId =
          some { ta with balanceCents := ta.balanceCents + dto.amountCents } ∧
        r.fromTransaction = toTransactionSummary (transferFromTxn db fa dto) ∧
        r.toTransaction = toTransactionSummary (transferToTxn db ta dto) := by
  intro db u dto fa ta hfrom hbal hto hne hpos hu hfresh
  have hfa := findAccountByIdAndUser_eq_some hfrom
  have hta := findAccountById_eq_some hto
  have hok := doTransfer_ok_eq hfrom (not_lt.mpr hbal) hto
  have hfid : fa.id = dto.fromAccountId := hfa.2.1
  have htid : ta.id = dto.toAccountId := hta.2
  refine ⟨transferCommit db fa ta dto, _, hok, rfl, rfl, rfl, hfid, htid, rfl, rfl, rfl, rfl,
    rfl, rfl, ?_, ?_, ?_, rfl, rfl⟩
  · intro t ht
    exact Nat.ne_of_lt (hfresh t ht)
  · have hbase : findAccountById
        { db with
          transactions := db.transactions ++
            [transferFromTxn db fa dto, transferToTxn db ta dto]
          nextId := db.nextId + 3 }
        dto.fromAccountId = some fa := by
      have h1 : findAccountById db dto.fromAccountId = some fa := by
        rw [← hfid]
        exact findAccountById_of_mem hu hfa.1
      exact h1
    show findAccountById (transferCommit db fa ta dto) dto.fromAccountId = _
    unfold transferCommit
    rw [findAccountById_updateBalance, findAccountById_updateBalance, hbase]
    have hneq : ¬ fa.id = ta.id := by
      rw [hfid, htid]; exact hne
    simp [hneq, sub_eq_add_neg]
  · have hbase : findAccountById
        { db with
          transactions := db.transactions ++
            [transferFromTxn db fa dto, transferToTxn db ta dto]
          nextId := db.nextId + 3 }
        dto.toAccountId = some ta := by
      have h1 : findAccountById db dto.toAccountId = some ta := by
        rw [← htid]
        exact findAccountById_of_mem hu hta.1
      exact h1
    show findAccountById (transferCommit db fa ta dto) dto.toAccountId = _
    unfold transferCommit
    rw [findAccountById_updateBalance, findAccountById_updateBalance, hbase]
    have hneq : ¬ ta.id = fa.id := by
      rw [hfid, htid]; exact fun h => hne h.symm
    simp [hneq]

/-- Witness for C2 (Scenario B): transferring 100 from "A" (balance 100,
owned by "u") to "B" (balance 0, owned by "v") in `dbW`. -/
theorem c2_transfer_creates_two_legs_witness :
    ∃ db2 r, doTransfer dbW "u"
        { fromAccountId := "A", toAccountId := "B", amountCents := 100,
          transactionNote := none } = .ok (db2, r) ∧
      db2.transactions = dbW.transactions ++
        [transferFromTxn dbW { id := "A", userId := "u", balanceCents := 100 }
          { fromAccountId := "A", toAccountId := "B", amountCents := 100,
            transactionNote := none },
         transferToTxn dbW { id := "B", userId := "v", balanceCents := 0 }
          { fromAccountId := "A", toAccountId := "B", amountCents := 100,
            transactionNote := none }] ∧
      (transferFromTxn dbW { id := "A", userId := "u", balanceCents := 100 }
        { fromAccountId := "A", toAccountId := "B", amountCents := 100,
          transactionNote := none }).amountCents = -100 ∧
      (transferToTxn dbW { id := "B", userId := "v", balanceCents := 0 }
        { fromAccountId := "A", toAccountId := "B", amountCents := 100,
          transactionNote := none }).amountCents = 100 ∧
      (transferFromTxn dbW { id := "A", userId := "u", balanceCents := 100 }
        { fromAccountId := "A", toAccountId := "B", amountCents := 100,
          transactionNote := none }).accountId = "A" ∧
      (transferToTxn dbW { id := "B", userId := "v", balanceCents := 0 }
        { fromAccountId := "A", toAccountId := "B", amountCents := 100,
          transactionNote := none }).accountId = "B" ∧
      (transferFromTxn dbW { id := "A", userId := "u", balanceCents := 100 }
        { fromAccountId := "A", toAccountId := "B", amountCents := 100,
          transactionNote := none }).status = .COMPLETED ∧
      (transferToTxn dbW { id := "B", userId := "v", balanceCents := 0 }
        { fromAccountId := "A", toAccountId := "B", amountCents := 100,
          transactionNote := none }).status = .COMPLETED ∧
      (transferFromTxn dbW { id := "A", userId := "u", balanceCents := 100 }
        { fromAccountId := "A", toAccountId := "B", amountCents := 100,
          transactionNote := none }).type = .TRANSFER ∧
      (transferToTxn dbW { id := "B", userId := "v", balanceCents := 0 }
        { fromAccountId := "A", toAccountId := "B", amountCents := 100,
          transactionNote := none }).type = .TRANSFER ∧
      (transferFromTxn dbW { id := "A", userId := "u", balanceCents := 100 }
        { fromAccountId := "A", toAccountId := "B", amountCents := 100,
          transactionNote := none }).transferId = r.transferId ∧
      (transferToTxn dbW { id := "B", userId := "v", balanceCents := 0 }
        { fromAccountId := "A", toAccountId := "B", amountCents := 100,
          transactionNote := none }).transferId = r.transferId ∧
      (∀ t ∈ dbW.transactions, t.transferId ≠ r.transferId) ∧
      findAccountById db2 "A" =
        some { id := "A", userId := "u", balanceCents := 0 } ∧
      findAccountById db2 "B" =
        some { id := "B", userId := "v", balanceCents := 100 } ∧
      r.fromTransaction = toTransactionSummary
        (transferFromTxn dbW { id := "A", userId := "u", balanceCents := 100 }
          { fromAccountId := "A", toAccountId := "B", amountCents := 100,
            transactionNote := none }) ∧
      r.toTransaction = toTransactionSummary
        (transferToTxn dbW { id := "B", userId := "v", balanceCents := 0 }
          { fromAccountId := "A", toAccountId := "B", amountCents := 100,
            transactionNote := none }) :=
  c2_transfer_creates_two_legs dbW "u"
    { fromAccountId := "A", toAccountId := "B", amountCents := 100, transactionNote := none }
    { id := "A", userId := "u", balanceCents := 100 }
    { id := "B", userId := "v", balanceCents := 0 }
    (by decide) (by decide) (by decide) (by decide) (by decide) (by decide) (by decide)

/-- Business-rule errors of the error taxonomy: the typed NestJS exceptions
(`NotFoundException` for a missing account, `BadRequestException` for an
insufficient balance or an invalid request), as opposed to driver errors
carrying a Prisma `code` and to the conflict error. -/
def IsBusinessError : AppError → Prop
  | .badRequest _ => True
  | .notFound _ => True
  | _ => False

lemma doTransfer_error_business {db : DB} {u : String} {dto : CreateTransferDto}
    {e : AppError} (h : doTransfer db u dto = .error e) : IsBusinessError e := by
  cases hfrom : findAccountByIdAndUser db dto.fromAccountId u with
  | none =>
    rw [doTransfer_fromNotFound_eq hfrom] at h
    cases h
    trivial
  | some fa =>
    by_cases hbal : fa.balanceCents < dto.amountCents
    · rw [doTransfer_insufficient_eq hfrom hbal] at h
      cases h
      trivial
    · cases hto : findAccountById db dto.toAccountId with
      | none =>
        rw [doTransfer_toNotFound_eq hfrom hbal hto] at h
        cases h
        trivial
      | some ta =>
        rw [doTransfer_ok_eq hfrom hbal hto] at h
        cases h

lemma doDeposit_error_business {db : DB} {u : String} {dto : CreateDepositDto}
    {e : AppError} (h : doDeposit db u dto = .error e) : IsBusinessError e := by
  cases hfind : findAccountByIdAndUser db dto.accountId u with
  | none =>
    rw [doDeposit_notFound_eq hfind] at h
    cases h
    trivial
  | some a =>
    rw [doDeposit_ok_eq hfind] at h
    cases h

lemma doWithdrawal_error_business {db : DB} {u : String} {dto : CreateWithdrawalDto}
    {e : AppError} (h : doWithdrawal db u dto = .error e) : IsBusinessError e := by
  cases hfind : findAccountByIdAndUser db dto.accountId u with
  | none =>
    rw [doWithdrawal_notFound_eq hfind] at h
    cases h
    trivial
  | some a =>
    by_cases hbal : a.balanceCents < dto.amountCents
    · rw [doWithdrawal_insufficient_eq hfind hbal] at h
      cases h
      trivial
    · rw [doWithdrawal_ok_eq hfind hbal] at h
      cases h

lemma business_prismaCode_ne {e : AppError} (h : IsBusinessError e) :
    e.prismaCode ≠ some "P2002" := by
  cases e with
  | badRequest m => simp [AppError.prismaCode]
  | notFound m => simp [AppError.prismaCode]
  | conflict c s m => simp [AppError.prismaCode]
  | dbError c => exact (h : False).elim

lemma withIdempotency_replay_eq {db : DB} {u k : String} {r : IdempotencyRecord}
    {p : CreateTransactionResult}
    (worker : DB → Except AppError (DB × CreateTransactionResult))
    (hfind : findIdemRecord db u k = some r)
    (hst : r.status = .COMPLETED) (hp : r.responsePayload = some p) :
    withIdempotency db u k worker =
      .ok (db, { result := p, idempotencyStatus := "COMPLETED" }) := by
  unfold withIdempotency
  rw [hfind]
  simp [hst, hp]

lemma withIdempotency_processing_eq {db : DB} {u k : String} {r : IdempotencyRecord}
    (worker : DB → Except AppError (DB × CreateTransactionResult))
    (hfind : findIdemRecord db u k = some r)
    (hst : r.status = .PROCESSING) :
    withIdempotency db u k worker = .error idempotencyInProgress := by
  unfold withIdempotency
  rw [hfind]
  simp [hst]

lemma withIdempotency_fresh_eq {db : DB} {u k : String}
    (worker : DB → Except AppError (DB × CreateTransactionResult))
    (hfind : findIdemRecord db u k = none) :
    withIdempotency db u k worker = runIdemTransaction db u k worker := by
  unfold withIdempotency
  rw [hfind]

lemma txBody_fresh_ok_eq {db : DB} {u k : String} {d2 : DB}
    {r : CreateTransactionResult}
    {worker : DB → Except AppError (DB × CreateTransactionResult)}
    (hfind : findIdemRecord db u k = none)
    (hw : worker (addIdemRecord db u k) = .ok (d2, r)) :
    txBody db u k worker = .ok (completeIdemRecord d2 u k r, r) := by
  unfold txBody
  rw [hfind]
  simp [hw]

lemma txBody_fresh_err_eq {db : DB} {u k : String} {e : AppError}
    {worker : DB → Except AppError (DB × CreateTransactionResult)}
    (hfind : findIdemRecord db u k = none)
    (hw : worker (addIdemRecord db u k) = .error e) :
    txBody db u k worker = .error e := by
  unfold txBody
  rw [hfind]
  simp [hw]

lemma txBody_collision_eq {db : DB} {u k : String} {r : IdempotencyRecord}
    (worker : DB → Except AppError (DB × CreateTransactionResult))
    (hfind : findIdemRecord db u k = some r) :
    txBody db u k worker = .error (.dbError "P2002") := by
  unfold txBody
  rw [hfind]
  rfl

lemma runIdemTransaction_ok_eq {db : DB} {u k : String} {d2 : DB}
    {r : CreateTransactionResult}
    {worker : DB → Except AppError (DB × CreateTransactionResult)}
    (hbody : txBody db u k worker = .ok (d2, r)) :
    runIdemTransaction db u k worker =
      .ok (d2, { result := r, idempotencyStatus := "CREATED" }) := by
  unfold runIdemTransaction
  rw [hbody]

lemma runIdemTransaction_err_eq {db : DB} {u k : String} {e : AppError}
    {worker : DB → Except AppError (DB × CreateTransactionResult)}
    (hbody : txBody db u k worker = .error e)
    (hcode : e.prismaCode ≠ some "P2002") :
    runIdemTransaction db u k worker = .error e := by
  unfold runIdemTransaction
  rw [hbody]
  simp [hcode]

lemma withIdempotency_fresh_ok_eq {db : DB} {u k : String} {d2 : DB}
    {r : CreateTransactionResult}
    {worker : DB → Except AppError (DB × CreateTransactionResult)}
    (hfind : findIdemRecord db u k = none)
    (hw : worker (addIdemRecord db u k) = .ok (d2, r)) :
    withIdempotency db u k worker =
      .ok (completeIdemRecord d2 u k r, { result := r, idempotencyStatus := "CREATED" }) := by
  rw [withIdempotency_fresh_eq worker hfind]
  exact runIdemTransaction_ok_eq (txBody_fresh_ok_eq hfind hw)

lemma withIdempotency_fresh_err_eq {db : DB} {u k : String} {e : AppError}
    {worker : DB → Except AppError (DB × CreateTransactionResult)}
    (hfind : findIdemRecord db u k = none)
    (hw : worker (addIdemRecord db u k) = .error e)
    (hcode : e.prismaCode ≠ some "P2002") :
    withIdempotency db u k worker = .error e := by
  rw [withIdempotency_fresh_eq worker hfind]
  exact runIdemTransaction_err_eq (txBody_fresh_err_eq hfind hw) hcode

lemma find?_append_of_none {α : Type} {l : List α} {p : α → Bool}
    (h : l.find? p = none) (x : α) (hx : p x = true) :
    (l ++ [x]).find? p = some x := by
  induction l with
  | nil => simp [List.find?, hx]
  | cons a l ih =>
    rw [List.find?_cons] at h
    by_cases hp : p a
    · rw [hp] at h; cases h
    · have hpf : p a = false := by
        cases hpa : p a
        · rfl
        · exact absurd hpa hp
      rw [hpf] at h
      simp only [List.cons_append, List.find?_cons, hpf]
      exact ih h

lemma findIdemRecord_add_self {db : DB} {u k : String}
    (h : findIdemRecord db u k = none) :
    findIdemRecord (addIdemRecord db u k) u k =
      some { userId := u, idempotencyKey := k, status := .PROCESSING,
             responsePayload := none } := by
  unfold findIdemRecord addIdemRecord
  unfold findIdemRecord at h
  exact find?_append_of_none h _ (by simp)

lemma findIdemRecord_complete (d : DB) (u k : String) (p : CreateTransactionResult) :
    findIdemRecord (completeIdemRecord d u k p) u k =
      (findIdemRecord d u k).map (fun r =>
        { r with status := .COMPLETED, responsePayload := some p }) := by
  unfold findIdemRecord completeIdemRecord
  induction d.idempotencyRecords with
  | nil => rfl
  | cons a l ih =>
    by_cases hp : (a.userId == u && a.idempotencyKey == k) = true
    · simp only [List.map_cons, List.find?_cons, hp, if_pos]
      simp [hp]
    · have hpf : (a.userId == u && a.idempotencyKey == k) = false := by
        cases hpa : (a.userId == u && a.idempotencyKey == k)
        · rfl
        · exact absurd hpa hp
      simp only [List.map_cons, List.find?_cons, hpf, if_neg, Bool.false_eq_true,
        not_false_iff, ite_false]
      simpa [hpf] using ih

/-- C3: when the operation run under `withIdempotency` fails with a
business error inside the atomic unit of work, the whole unit — including
the PROCESSING `IdempotencyRecord` insert — rolls back: the committed
state is exactly the state before the call, no record exists for
`(actorId, idempotencyKey)`, no `Transaction` row and no balance change
survive, the business error reaches the caller unchanged, and a retry with
the same key proceeds as a fresh first attempt. -/
theorem c3_rollback_on_business_failure :
    ∀ (db : DB) (u key : String)
      (worker : DB → Except AppError (DB × CreateTransactionResult)) (e : AppError),
      findIdemRecord db u key = none →
      worker (addIdemRecord db u key) = .error e →
      IsBusinessError e →
      withIdempotency db u key worker = .error e ∧
      commitOf db (withIdempotency db u key worker) = db ∧
      findIdemRecord (commitOf db (withIdempotency db u key worker)) u key = none ∧
      (∀ (worker2 : DB → Except AppError (DB × CreateTransactionResult))
         (d2 : DB) (r2 : CreateTransactionResult),
        worker2 (addIdemRecord db u key) = .ok (d2, r2) →
        withIdempotency db u key worker2 =
          .ok (completeIdemRecord d2 u key r2,
               { result := r2, idempotencyStatus := "CREATED" })) := by
  intro db u key worker e hfind hw hbiz
  have hmain := withIdempotency_fresh_err_eq hfind hw (business_prismaCode_ne hbiz)
  refine ⟨hmain, ?_, ?_, ?_⟩
  · rw [hmain]
    rfl
  · rw [hmain]
    exact hfind
  · intro w2 d2 r2 hw2
    exact withIdempotency_fresh_ok_eq hfind hw2

/-- Witness for C3 (Scenario C): a withdrawal of 150 from the 100-cent
account "A" under key "k3" fails with `InsufficientBalance`, commits
nothing, leaves no idempotency record, and a later successful deposit under
the same key runs as a fresh first attempt. -/
theorem c3_rollback_on_business_failure_witness :
    withIdempotency dbW "u" "k3" (withdrawalWorker "u"
      { accountId := "A", amountCents := 150, transactionNote := none }) =
      .error insufficientBalance ∧
    commitOf dbW (withIdempotency dbW "u" "k3" (withdrawalWorker "u"
      { accountId := "A", amountCents := 150, transactionNote := none })) = dbW ∧
    findIdemRecord (commitOf dbW (withIdempotency dbW "u" "k3" (withdrawalWorker "u"
      { accountId := "A", amountCents := 150, transactionNote := none }))) "u" "k3" = none ∧
    withIdempotency dbW "u" "k3" (depositWorker "u"
      { accountId := "A", amountCents := 200, transactionNote := none }) =
      .ok (completeIdemRecord
             (depositCommit (addIdemRecord dbW "u" "k3")
               { id := "A", userId := "u", balanceCents := 100 }
               { accountId := "A", amountCents := 200, transactionNote := none })
             "u" "k3"
             (.deposit { transferId := 0,
                         transaction := toTransactionSummary
                           (depositTxn (addIdemRecord dbW "u" "k3")
                             { id := "A", userId := "u", balanceCents := 100 }
                             { accountId := "A", amountCents := 200,
                               transactionNote := none }) }),
           { result := .deposit { transferId := 0,
                                  transaction := toTransactionSummary
                                    (depositTxn (addIdemRecord dbW "u" "k3")
                                      { id := "A", userId := "u", balanceCents := 100 }
                                      { accountId := "A", amountCents := 200,
                                        transactionNote := none }) },
             idempotencyStatus := "CREATED" }) := by
  have h := c3_rollback_on_business_failure dbW "u" "k3"
    (withdrawalWorker "u" { accountId := "A", amountCents := 150, transactionNote := none })
    insufficientBalance (by decide) (by decide) trivial
  exact ⟨h.1, h.2.1, h.2.2.1, h.2.2.2 _ _ _ (by decide)⟩

/-- C4 amended: a call to `withIdempotency` finding a COMPLETED record with
a stored payload returns that payload verbatim with the idempotency status
literal `'COMPLETED'` (the code's name for a replay; the spec calls this
status `REPLAYED`), leaving the database untouched — the operation is not
re-executed, no `Transaction` row is created and no balance changes — and
a fresh key whose operation succeeds returns status `'CREATED'`. -/
theorem c4_replay_returns_stored_result :
    (∀ (db : DB) (u key : String)
       (worker : DB → Except AppError (DB × CreateTransactionResult))
       (r : IdempotencyRecord) (p : CreateTransactionResult),
      findIdemRecord db u key = some r →
      r.status = .COMPLETED → r.responsePayload = some p →
      withIdempotency db u key worker =
        .ok (db, { result := p, idempotencyStatus := "COMPLETED" }))
    ∧ (∀ (db : DB) (u key : String)
         (worker : DB → Except AppError (DB × CreateTransactionResult))
         (d2 : DB) (r2 : CreateTransactionResult),
      findIdemRecord db u key = none →
      worker (addIdemRecord db u key) = .ok (d2, r2) →
      withIdempotency db u key worker =
        .ok (completeIdemRecord d2 u key r2,
             { result := r2, idempotencyStatus := "CREATED" })) :=
  ⟨fun _ _ _ worker _ _ hf hs hp => withIdempotency_replay_eq worker hf hs hp,
   fun _ _ _ _ _ _ hf hw => withIdempotency_fresh_ok_eq hf hw⟩

/-- The stored result of the deposit that created record "k1" in `dbK`. -/
def resK : CreateTransactionResult :=
  .deposit { transferId := 0,
             transaction := { id := 1, accountId := "A", amountCents := 200,
                              status := .COMPLETED } }

/-- A database in which key "k1" of actor "u" is already COMPLETED with the
stored payload `resK`. -/
def dbK : DB :=
  { accounts := [{ id := "A", userId := "u", balanceCents := 300 }]
    transactions := [{ id := 1, accountId := "A", amountCents := 200, transferId := 0,
                       transactionNote := none, status := .COMPLETED, type := .DEPOSIT }]
    idempotencyRecords := [{ userId := "u", idempotencyKey := "k1",
                             status := .COMPLETED, responsePayload := some resK }]
    nextId := 2 }

/-- Counterexample to C4 as stated: replaying the COMPLETED key "k1"
returns the idempotency status literal `'COMPLETED'`, not `'REPLAYED'` —
the code has no `REPLAYED` value (`IdempotencyResponse` is
`'CREATED' | 'COMPLETED'`). -/
theorem c4_replay_status_counterexample :
    withIdempotency dbK "u" "k1" (depositWorker "u"
      { accountId := "A", amountCents := 200, transactionNote := none }) =
      .ok (dbK, { result := resK, idempotencyStatus := "COMPLETED" }) ∧
    ("COMPLETED" : String) ≠ "REPLAYED" :=
  ⟨by decide, by decide⟩

/-- Witness for C4 at concrete inputs: a replay on `dbK` and a fresh
successful deposit on `dbW`. -/
theorem c4_replay_returns_stored_result_witness :
    withIdempotency dbK "u" "k1" (withdrawalWorker "u"
      { accountId := "A", amountCents := 50, transactionNote := none }) =
      .ok (dbK, { result := resK, idempotencyStatus := "COMPLETED" }) ∧
    withIdempotency dbW "u" "k9" (depositWorker "u"
      { accountId := "A", amountCents := 10, transactionNote := none }) =
      .ok (completeIdemRecord
             (depositCommit (addIdemRecord dbW "u" "k9")
               { id := "A", userId := "u", balanceCents := 100 }
               { accountId := "A", amountCents := 10, transactionNote := none })
             "u" "k9"
             (.deposit { transferId := 0,
                         transaction := toTransactionSummary
                           (depositTxn (addIdemRecord dbW "u" "k9")
                             { id := "A", userId := "u", balanceCents := 100 }
                             { accountId := "A", amountCents := 10,
                               transactionNote := none }) }),
           { result := .deposit { transferId := 0,
                                  transaction := toTransactionSummary
                                    (depositTxn (addIdemRecord dbW "u" "k9")
                                      { id := "A", userId := "u", balanceCents := 100 }
                                      { accountId := "A", amountCents := 10,
                                        transactionNote := none }) },
             idempotencyStatus := "CREATED" }) :=
  ⟨c4_replay_returns_stored_result.1 dbK "u" "k1" _
     { userId := "u", idempotencyKey := "k1", status := .COMPLETED,
       responsePayload := some resK } resK (by decide) (by decide) (by decide),
   c4_replay_returns_stored_result.2 dbW "u" "k9" _ _ _ (by decide) (by decide)⟩

lemma createDeposit_run_eq {db : DB} {u : String} {dto : CreateDepositDto}
    {key : String} (hkey : ¬ jsTrim key = "") (hamt : ¬ dto.amountCents ≤ 0) :
    createDeposit db u dto key = withIdempotency db u (jsTrim key) (depositWorker u dto) := by
  simp [createDeposit, hkey, hamt]

lemma depositWorker_ok_eq {db : DB} {u : String} {dto : CreateDepositDto}
    {a : Account} (hfind : findAccountByIdAndUser db dto.accountId u = some a) :
    depositWorker u dto db = .ok (depositCommit db a dto,
      .deposit { transferId := db.nextId
                 transaction := toTransactionSummary (depositTxn db a dto) }) := by
  unfold depositWorker
  rw [doDeposit_ok_eq hfind]

/-- C5 amended: calling `createDeposit` twice sequentially with the same
`(actorId, key)` — the payloads may differ — produces exactly one new
`Transaction` row and exactly one balance increment (those of the first
call), and the second call returns exactly the result of the first with the
idempotency status literal `'COMPLETED'` (the code's name for a replay; the
spec calls this status `REPLAYED`), leaving the database unchanged. -/
theorem c5_sequential_deposit_idempotent :
    ∀ (db : DB) (u : String) (dto1 dto2 : CreateDepositDto) (key : String) (a : Account),
      ¬ jsTrim key = "" →
      0 < dto1.amountCents → 0 < dto2.amountCents →
      findIdemRecord db u (jsTrim key) = none →
      findAccountByIdAndUser db dto1.accountId u = some a →
      ∃ db1 r,
        createDeposit db u dto1 key =
          .ok (db1, { result := r, idempotencyStatus := "CREATED" }) ∧
        db1.transactions = db.transactions ++ [depositTxn db a dto1] ∧
        db1.accounts = db.accounts.map (fun b =>
          if b.id = a.id then { b with balanceCents := b.balanceCents + dto1.amountCents }
          else b) ∧
        createDeposit db1 u dto2 key =
          .ok (db1, { result := r, idempotencyStatus := "COMPLETED" }) := by
  intro db u dto1 dto2 key a hkey hamt1 hamt2 hfind hacct
  have hacct' : findAccountByIdAndUser (addIdemRecord db u (jsTrim key)) dto1.accountId u =
      some a := hacct
  have hw := depositWorker_ok_eq hacct'
  have hfirst : createDeposit db u dto1 key =
      .ok (completeIdemRecord
             (depositCommit (addIdemRecord db u (jsTrim key)) a dto1) u (jsTrim key)
             (.deposit { transferId := db.nextId
                         transaction := toTransactionSummary (depositTxn db a dto1) }),
           { result := .deposit { transferId := db.nextId
                                  transaction := toTransactionSummary (depositTxn db a dto1) },
             idempotencyStatus := "CREATED" }) := by
    rw [createDeposit_run_eq hkey (not_le.mpr hamt1)]
    exact withIdempotency_fresh_ok_eq hfind hw
  refine ⟨_, _, hfirst, rfl, rfl, ?_⟩
  have hrec : findIdemRecord
      (completeIdemRecord (depositCommit (addIdemRecord db u (jsTrim key)) a dto1) u (jsTrim key)
        (.deposit { transferId := db.nextId
                    transaction := toTransactionSummary (depositTxn db a dto1) }))
      u (jsTrim key) =
      some { userId := u, idempotencyKey := jsTrim key, status := .COMPLETED,
             responsePayload := some (.deposit
               { transferId := db.nextId
                 transaction := toTransactionSummary (depositTxn db a dto1) }) } := by
    rw [findIdemRecord_complete]
    have h2 : findIdemRecord (depositCommit (addIdemRecord db u (jsTrim key)) a dto1)
        u (jsTrim key) =
        some { userId := u, idempotencyKey := jsTrim key, status := .PROCESSING,
               responsePayload := none } := findIdemRecord_add_self hfind
    rw [h2]
    rfl
  rw [createDeposit_run_eq hkey (not_le.mpr hamt2)]
  exact withIdempotency_replay_eq _ hrec rfl rfl

/-- The deposit payload used by the C5 scenario (Scenario A shape). -/
def ddto : CreateDepositDto :=
  { accountId := "A", amountCents := 200, transactionNote := none }

/-- The result of the first deposit of `ddto` on `dbW` under key "k1". -/
def res1 : CreateTransactionResult :=
  .deposit { transferId := 0,
             transaction := { id := 1, accountId := "A", amountCents := 200,
                              status := .COMPLETED } }

/-- The database committed by the first deposit of `ddto` on `dbW`. -/
def dbW1 : DB :=
  completeIdemRecord
    (depositCommit (addIdemRecord dbW "u" "k1")
      { id := "A", userId := "u", balanceCents := 100 } ddto)
    "u" "k1" res1

/-- Counterexample to C5 as stated: the second identical deposit call
replays the first result but returns the idempotency status literal
`'COMPLETED'`, not `'REPLAYED'`. -/
theorem c5_second_call_status_counterexample :
    createDeposit dbW "u" ddto "k1" =
      .ok (dbW1, { result := res1, idempotencyStatus := "CREATED" }) ∧
    createDeposit dbW1 "u" ddto "k1" =
      .ok (dbW1, { result := res1, idempotencyStatus := "COMPLETED" }) ∧
    ("COMPLETED" : String) ≠ "REPLAYED" :=
  ⟨by decide, by decide, by decide⟩

/-- Witness for C5 at concrete inputs: depositing 200 twice on account "A"
of `dbW` under key "k1", the second call with a different note. -/
theorem c5_sequential_deposit_idempotent_witness :
    ∃ db1 r,
      createDeposit dbW "u" ddto "k1" =
        .ok (db1, { result := r, idempotencyStatus := "CREATED" }) ∧
      db1.transactions = dbW.transactions ++
        [depositTxn dbW { id := "A", userId := "u", balanceCents := 100 } ddto] ∧
      db1.accounts = dbW.accounts.map (fun b =>
        if b.id = ("A" : String) then { b with balanceCents := b.balanceCents + 200 }
        else b) ∧
      createDeposit db1 "u"
        { accountId := "A", amountCents := 999, transactionNote := some "different" } "k1" =
        .ok (db1, { result := r, idempotencyStatus := "COMPLETED" }) :=
  c5_sequential_deposit_idempotent dbW "u" ddto
    { accountId := "A", amountCents := 999, transactionNote := some "different" } "k1"
    { id := "A", userId := "u", balanceCents := 100 }
    (by decide) (by decide) (by decide) (by decide) (by decide)

lemma runIdemTransaction_p2002_replay {db : DB} {u k : String}
    {worker : DB → Except AppError (DB × CreateTransactionResult)}
    {r : IdempotencyRecord} {p : CreateTransactionResult}
    (hfind : findIdemRecord db u k = some r)
    (hst : r.status = .COMPLETED) (hp : r.responsePayload = some p) :
    runIdemTransaction db u k worker =
      .ok (db, { result := p, idempotencyStatus := "COMPLETED" }) := by
  unfold runIdemTransaction
  rw [txBody_collision_eq worker hfind]
  simp [AppError.prismaCode, hfind, hst, hp]

lemma runIdemTransaction_p2002_processing {db : DB} {u k : String}
    {worker : DB → Except AppError (DB × CreateTransactionResult)}
    {r : IdempotencyRecord}
    (hfind : findIdemRecord db u k = some r)
    (hst : r.status = .PROCESSING) :
    runIdemTransaction db u k worker = .error idempotencyInProgress := by
  unfold runIdemTransaction
  rw [txBody_collision_eq worker hfind]
  simp [AppError.prismaCode, hfind, hst]

/-- C7: the engine's own failures are typed business errors (so the only
unique-constraint violation — Prisma code `P2002` — raised inside
`withIdempotency` is the `IdempotencyRecord` insert's, on
`(actorId, idempotencyKey)`); business errors pass straight through after
rollback; an error with any other Prisma code is an infrastructure error
propagated to the caller unchanged; and the idempotency-insert collision's
`P2002` is translated into the conflict/replay logic — re-read the record,
return the stored result if COMPLETED, otherwise fail with
`Conflict(IN_PROGRESS)` — instead of surfacing as a generic error. -/
theorem c7_error_translation :
    (∀ (db : DB) (u : String) (dto : CreateTransferDto) (e : AppError),
      doTransfer db u dto = .error e → IsBusinessError e)
    ∧ (∀ (db : DB) (u : String) (dto : CreateDepositDto) (e : AppError),
      doDeposit db u dto = .error e → IsBusinessError e)
    ∧ (∀ (db : DB) (u : String) (dto : CreateWithdrawalDto) (e : AppError),
      doWithdrawal db u dto = .error e → IsBusinessError e)
    ∧ (∀ (db : DB) (u key : String)
         (worker : DB → Except AppError (DB × CreateTransactionResult)) (e : AppError),
      findIdemRecord db u key = none →
      worker (addIdemRecord db u key) = .error e →
      IsBusinessError e →
      withIdempotency db u key worker = .error e ∧
      commitOf db (withIdempotency db u key worker) = db)
    ∧ (∀ (db : DB) (u key : String)
         (worker : DB → Except AppError (DB × CreateTransactionResult)) (c : String),
      c ≠ "P2002" →
      findIdemRecord db u key = none →
      worker (addIdemRecord db u key) = .error (.dbError c) →
      withIdempotency db u key worker = .error (.dbError c))
    ∧ (∀ (db : DB) (u key : String)
         (worker : DB → Except AppError (DB × CreateTransactionResult))
         (r : IdempotencyRecord),
      findIdemRecord db u key = some r →
      txBody db u key worker = .error (.dbError "P2002") ∧
      (∀ p, r.status = .COMPLETED → r.responsePayload = some p →
        runIdemTransaction db u key worker =
          .ok (db, { result := p, idempotencyStatus := "COMPLETED" })) ∧
      (r.status = .PROCESSING →
        runIdemTransaction db u key worker = .error idempotencyInProgress)) := by
  refine ⟨?_, ?_, ?_, ?_, ?_, ?_⟩
  · intro db u dto e h
    exact doTransfer_error_business h
  · intro db u dto e h
    exact doDeposit_error_business h
  · intro db u dto e h
    exact doWithdrawal_error_business h
  · intro db u key worker e hfind hw hbiz
    have hmain := withIdempotency_fresh_err_eq hfind hw (business_prismaCode_ne hbiz)
    refine ⟨hmain, ?_⟩
    rw [hmain]
    rfl
  · intro db u key worker c hc hfind hw
    refine withIdempotency_fresh_err_eq hfind hw ?_
    simp [AppError.prismaCode, hc]
  · intro db u key worker r hfind
    exact ⟨txBody_collision_eq worker hfind,
      fun p hst hp => runIdemTransaction_p2002_replay hfind hst hp,
      fun hst => runIdemTransaction_p2002_processing hfind hst⟩

/-- A database in which key "k1" of actor "u" is stuck PROCESSING with no
stored payload. -/
def dbP : DB :=
  { accounts := [{ id := "A", userId := "u", balanceCents := 300 }]
    transactions := []
    idempotencyRecords := [{ userId := "u", idempotencyKey := "k1",
                             status := .PROCESSING, responsePayload := none }]
    nextId := 2 }

/-- Witness for C7 at concrete inputs: a business error from the engine, a
business error propagated unchanged with rollback, a non-P2002 driver error
propagated unchanged, and the idempotency-insert collision translated into
replay on `dbK` and conflict on `dbP`. -/
theorem c7_error_translation_witness :
    IsBusinessError (.notFound "From account not found") ∧
    (withIdempotency dbW "u" "k7" (withdrawalWorker "u"
        { accountId := "A", amountCents := 150, transactionNote := none }) =
      .error insufficientBalance ∧
     commitOf dbW (withIdempotency dbW "u" "k7" (withdrawalWorker "u"
        { accountId := "A", amountCents := 150, transactionNote := none })) = dbW) ∧
    withIdempotency dbW "u" "k7"
      (fun _ => .error (.dbError "P2003")) = .error (.dbError "P2003") ∧
    (txBody dbK "u" "k1" (depositWorker "u" ddto) = .error (.dbError "P2002") ∧
     runIdemTransaction dbK "u" "k1" (depositWorker "u" ddto) =
       .ok (dbK, { result := resK, idempotencyStatus := "COMPLETED" })) ∧
    runIdemTransaction dbP "u" "k1" (depositWorker "u" ddto) =
      .error idempotencyInProgress := by
  have h6K := c7_error_translation.2.2.2.2.2 dbK "u" "k1" (depositWorker "u" ddto)
    { userId := "u", idempotencyKey := "k1", status := .COMPLETED,
      responsePayload := some resK } (by decide)
  have h6P := c7_error_translation.2.2.2.2.2 dbP "u" "k1" (depositWorker "u" ddto)
    { userId := "u", idempotencyKey := "k1", status := .PROCESSING,
      responsePayload := none } (by decide)
  exact ⟨c7_error_translation.1 dbW "u"
      { fromAccountId := "X", toAccountId := "A", amountCents := 5, transactionNote := none }
      (.notFound "From account not found") (by decide),
    c7_error_translation.2.2.2.1 dbW "u" "k7" (withdrawalWorker "u"
      { accountId := "A", amountCents := 150, transactionNote := none })
      insufficientBalance (by decide) (by decide) trivial,
    c7_error_translation.2.2.2.2.1 dbW "u" "k7" (fun _ => .error (.dbError "P2003"))
      "P2003" (by decide) (by decide) (by decide),
    ⟨h6K.1, h6K.2.1 resK (by decide) (by decide)⟩,
    h6P.2.2 (by decide)⟩

/-- Outcome of one request in the two-request concurrency model of
`withIdempotency`. -/
inductive Outcome where
  | created (r : CreateTransactionResult)
  | replayed (r : CreateTransactionResult)
  | conflict
  | failed (e : AppError)
deriving DecidableEq, Repr

/-- Control state of one in-flight request running `withIdempotency` with a
withdrawal worker: before the pre-check read (`start`), about to run the
atomic `$transaction` (`tryTx`), re-reading after a `P2002` collision
(`reRead`), or finished (`done`). -/
inductive PState where
  | start
  | tryTx
  | reRead
  | done (o : Outcome)
deriving DecidableEq, Repr

/-- Configuration of two concurrent `withIdempotency` calls sharing one
database: the committed database, each request's control state, and how
many times the Transaction Engine worker has been executed. -/
structure Sys where
  db : DB
  p1 : PState
  p2 : PState
  engineRuns : Nat
deriving DecidableEq, Repr

/-- One atomic step of a single request. Each step is one database
interaction of `withIdempotency`: the pre-check read together with the
pure branch on it; the whole `$transaction` (the PROCESSING insert, whose
unique constraint on `(userId, idempotencyKey)` raises `P2002` when a
committed record already exists, the worker, and the COMPLETED update —
committing or rolling back atomically); and the catch's re-read. Readers
outside the transaction only ever see committed state. -/
def stepProc (u k : String) (dto : CreateWithdrawalDto) (db : DB) (engineRuns : Nat) :
    PState → DB × Nat × PState
  | .start =>
    match findIdemRecord db u k with
    | some r =>
      match r.status, r.responsePayload with
      | .COMPLETED, some payload => (db, engineRuns, .done (.replayed payload))
      | .PROCESSING, _ => (db, engineRuns, .done .conflict)
      | .COMPLETED, none => (db, engineRuns, .tryTx)
    | none => (db, engineRuns, .tryTx)
  | .tryTx =>
    match findIdemRecord db u k with
    | some _ => (db, engineRuns, .reRead)
    | none =>
      match withdrawalWorker u dto (addIdemRecord db u k) with
      | .error e => (db, engineRuns + 1, .done (.failed e))
      | .ok (d2, r) =>
        (completeIdemRecord d2 u k r, engineRuns + 1, .done (.created r))
  | .reRead =>
    match findIdemRecord db u k with
    | some r =>
      match r.status, r.responsePayload with
      | .COMPLETED, some payload => (db, engineRuns, .done (.replayed payload))
      | _, _ => (db, engineRuns, .done .conflict)
    | none => (db, engineRuns, .done .conflict)
  | .done o => (db, engineRuns, .done o)

/-- Scheduler step: `true` advances request 1, `false` advances request 2. -/
def stepSys (u k : String) (dto : CreateWithdrawalDto) (s : Sys) : Bool → Sys
  | true =>
    let x := stepProc u k dto s.db s.engineRuns s.p1
    { db := x.1, engineRuns := x.2.1, p1 := x.2.2, p2 := s.p2 }
  | false =>
    let x := stepProc u k dto s.db s.engineRuns s.p2
    { db := x.1, engineRuns := x.2.1, p1 := s.p1, p2 := x.2.2 }

/-- Run the two-request system under an arbitrary interleaving. -/
def runSys (u k : String) (dto : CreateWithdrawalDto) : Sys → List Bool → Sys
  | s, [] => s
  | s, b :: rest => runSys u k dto (stepSys u k dto s b) rest

/-- Both requests start fresh against the given database. -/
def initSys (db : DB) : Sys :=
  { db := db, p1 := .start, p2 := .start, engineRuns := 0 }

/-- The result of the withdrawal that wins the race on `db`. -/
def winResult (db : DB) (a : Account) (dto : CreateWithdrawalDto) : CreateTransactionResult :=
  .withdrawal { transferId := db.nextId
                transaction := toTransactionSummary (withdrawalTxn db a dto) }

/-- The database committed by the winning request. -/
def winDB (db : DB) (u k : String) (a : Account) (dto : CreateWithdrawalDto) : DB :=
  completeIdemRecord (withdrawalCommit (addIdemRecord db u k) a dto) u k
    (winResult db a dto)

lemma withdrawalWorker_ok_eq {db : DB} {u : String} {dto : CreateWithdrawalDto}
    {a : Account} (hfind : findAccountByIdAndUser db dto.accountId u = some a)
    (hbal : ¬ a.balanceCents < dto.amountCents) :
    withdrawalWorker u dto db = .ok (withdrawalCommit db a dto,
      .withdrawal { transferId := db.nextId
                    transaction := toTransactionSummary (withdrawalTxn db a dto) }) := by
  unfold withdrawalWorker
  rw [doWithdrawal_ok_eq hfind hbal]

lemma withdrawalWorker_insufficient_eq {db : DB} {u : String} {dto : CreateWithdrawalDto}
    {a : Account} (hfind : findAccountByIdAndUser db dto.accountId u = some a)
    (hbal : a.balanceCents < dto.amountCents) :
    withdrawalWorker u dto db = .error insufficientBalance := by
  unfold withdrawalWorker
  rw [doWithdrawal_insufficient_eq hfind hbal]

lemma findIdemRecord_winDB {db : DB} {u k : String} (a : Account)
    (dto : CreateWithdrawalDto) (hfresh : findIdemRecord db u k = none) :
    findIdemRecord (winDB db u k a dto) u k =
      some { userId := u, idempotencyKey := k, status := .COMPLETED,
             responsePayload := some (winResult db a dto) } := by
  unfold winDB
  rw [findIdemRecord_complete]
  have h2 : findIdemRecord (withdrawalCommit (addIdemRecord db u k) a dto) u k =
      some { userId := u, idempotencyKey := k, status := .PROCESSING,
             responsePayload := none } := findIdemRecord_add_self hfresh
  rw [h2]
  rfl

lemma stepProc_start_none {db : DB} {u k : String} {dto : CreateWithdrawalDto}
    (h : findIdemRecord db u k = none) (n : Nat) :
    stepProc u k dto db n .start = (db, n, .tryTx) := by
  simp [stepProc, h]

lemma stepProc_start_completed {db : DB} {u k : String} {dto : CreateWithdrawalDto}
    {r : IdempotencyRecord} {p : CreateTransactionResult}
    (h : findIdemRecord db u k = some r) (hst : r.status = .COMPLETED)
    (hp : r.responsePayload = some p) (n : Nat) :
    stepProc u k dto db n .start = (db, n, .done (.replayed p)) := by
  simp [stepProc, h, hst, hp]

lemma stepProc_tryTx_some {db : DB} {u k : String} {dto : CreateWithdrawalDto}
    {r : IdempotencyRecord} (h : findIdemRecord db u k = some r) (n : Nat) :
    stepProc u k dto db n .tryTx = (db, n, .reRead) := by
  simp [stepProc, h]

lemma stepProc_tryTx_fresh_ok {db : DB} {u k : String} {dto : CreateWithdrawalDto}
    {d2 : DB} {r : CreateTransactionResult}
    (h : findIdemRecord db u k = none)
    (hw : withdrawalWorker u dto (addIdemRecord db u k) = .ok (d2, r)) (n : Nat) :
    stepProc u k dto db n .tryTx =
      (completeIdemRecord d2 u k r, n + 1, .done (.created r)) := by
  simp [stepProc, h, hw]

lemma stepProc_tryTx_fresh_err {db : DB} {u k : String} {dto : CreateWithdrawalDto}
    {e : AppError} (h : findIdemRecord db u k = none)
    (hw : withdrawalWorker u dto (addIdemRecord db u k) = .error e) (n : Nat) :
    stepProc u k dto db n .tryTx = (db, n + 1, .done (.failed e)) := by
  simp [stepProc, h, hw]

lemma stepProc_reRead_completed {db : DB} {u k : String} {dto : CreateWithdrawalDto}
    {r : IdempotencyRecord} {p : CreateTransactionResult}
    (h : findIdemRecord db u k = some r) (hst : r.status = .COMPLETED)
    (hp : r.responsePayload = some p) (n : Nat) :
    stepProc u k dto db n .reRead = (db, n, .done (.replayed p)) := by
  simp [stepProc, h, hst, hp]

lemma stepProc_done_eq (u k : String) (dto : CreateWithdrawalDto) (db : DB)
    (n : Nat) (o : Outcome) :
    stepProc u k dto db n (.done o) = (db, n, .done o) := rfl

/-- A request that has not yet created any state: before its pre-check or
about to attempt the transaction. -/
def PreS (p : PState) : Prop := p = .start ∨ p = .tryTx

/-- A request racing against an already committed winner: it will end up
replaying the winner's result `r`. -/
def PostS (r : CreateTransactionResult) (p : PState) : Prop :=
  p = .start ∨ p = .tryTx ∨ p = .reRead ∨ p = .done (.replayed r)

/-- Invariant of the race when the withdrawal can succeed: either nobody
has reached the engine yet and the database is untouched, or exactly one
request has won — committing the single debit — and the other can only end
up replaying the winner's result. -/
def InvS (db : DB) (u k : String) (a : Account) (dto : CreateWithdrawalDto)
    (s : Sys) : Prop :=
  (s.db = db ∧ s.engineRuns = 0 ∧ PreS s.p1 ∧ PreS s.p2)
  ∨ (s.db = winDB db u k a dto ∧ s.engineRuns = 1 ∧
     ((s.p1 = .done (.created (winResult db a dto)) ∧ PostS (winResult db a dto) s.p2)
      ∨ (s.p2 = .done (.created (winResult db a dto)) ∧ PostS (winResult db a dto) s.p1)))

lemma invS_step {db0 : DB} {u k : String} {a : Account} {dto : CreateWithdrawalDto}
    (hfresh : findIdemRecord db0 u k = none)
    (hacct : findAccountByIdAndUser db0 dto.accountId u = some a)
    (hbal : ¬ a.balanceCents < dto.amountCents)
    {s : Sys} (hinv : InvS db0 u k a dto s) (b : Bool) :
    InvS db0 u k a dto (stepSys u k dto s b) := by
  have hacct' : findAccountByIdAndUser (addIdemRecord db0 u k) dto.accountId u = some a :=
    hacct
  have hw : withdrawalWorker u dto (addIdemRecord db0 u k) =
      .ok (withdrawalCommit (addIdemRecord db0 u k) a dto, winResult db0 a dto) :=
    withdrawalWorker_ok_eq hacct' hbal
  have hwinT : ∀ n, stepProc u k dto db0 n .tryTx =
      (winDB db0 u k a dto, n + 1, .done (.created (winResult db0 a dto))) :=
    fun n => stepProc_tryTx_fresh_ok hfresh hw n
  have hrec := findIdemRecord_winDB a dto hfresh
  rcases hinv with ⟨hdb, hruns, hp1, hp2⟩ | ⟨hdb, hruns, hcase⟩
  · cases b with
    | true =>
      rcases hp1 with h1 | h1
      · simp only [stepSys, hdb, hruns, h1, stepProc_start_none hfresh]
        exact Or.inl ⟨rfl, rfl, Or.inr rfl, hp2⟩
      · simp only [stepSys, hdb, hruns, h1, hwinT]
        exact Or.inr ⟨rfl, rfl, Or.inl ⟨rfl, hp2.imp id Or.inl⟩⟩
    | false =>
      rcases hp2 with h2 | h2
      · simp only [stepSys, hdb, hruns, h2, stepProc_start_none hfresh]
        exact Or.inl ⟨rfl, rfl, hp1, Or.inr rfl⟩
      · simp only [stepSys, hdb, hruns, h2, hwinT]
        exact Or.inr ⟨rfl, rfl, Or.inr ⟨rfl, hp1.imp id Or.inl⟩⟩
  · rcases hcase with ⟨hwin, hpost⟩ | ⟨hwin, hpost⟩
    · cases b with
      | true =>
        simp only [stepSys, hdb, hruns, hwin, stepProc_done_eq]
        exact Or.inr ⟨rfl, rfl, Or.inl ⟨rfl, hpost⟩⟩
      | false =>
        rcases hpost with h2 | h2 | h2 | h2
        · simp only [stepSys, hdb, hruns, h2, stepProc_start_completed hrec rfl rfl]
          exact Or.inr ⟨rfl, rfl, Or.inl ⟨hwin, Or.inr (Or.inr (Or.inr rfl))⟩⟩
        · simp only [stepSys, hdb, hruns, h2, stepProc_tryTx_some hrec]
          exact Or.inr ⟨rfl, rfl, Or.inl ⟨hwin, Or.inr (Or.inr (Or.inl rfl))⟩⟩
        · simp only [stepSys, hdb, hruns, h2, stepProc_reRead_completed hrec rfl rfl]
          exact Or.inr ⟨rfl, rfl, Or.inl ⟨hwin, Or.inr (Or.inr (Or.inr rfl))⟩⟩
        · simp only [stepSys, hdb, hruns, h2, stepProc_done_eq]
          exact Or.inr ⟨rfl, rfl, Or.inl ⟨hwin, Or.inr (Or.inr (Or.inr rfl))⟩⟩
    · cases b with
      | false =>
        simp only [stepSys, hdb, hruns, hwin, stepProc_done_eq]
        exact Or.inr ⟨rfl, rfl, Or.inr ⟨rfl, hpost⟩⟩
      | true =>
        rcases hpost with h1 | h1 | h1 | h1
        · simp only [stepSys, hdb, hruns, h1, stepProc_start_completed hrec rfl rfl]
          exact Or.inr ⟨rfl, rfl, Or.inr ⟨hwin, Or.inr (Or.inr (Or.inr rfl))⟩⟩
        · simp only [stepSys, hdb, hruns, h1, stepProc_tryTx_some hrec]
          exact Or.inr ⟨rfl, rfl, Or.inr ⟨hwin, Or.inr (Or.inr (Or.inl rfl))⟩⟩
        · simp only [stepSys, hdb, hruns, h1, stepProc_reRead_completed hrec rfl rfl]
          exact Or.inr ⟨rfl, rfl, Or.inr ⟨hwin, Or.inr (Or.inr (Or.inr rfl))⟩⟩
        · simp only [stepSys, hdb, hruns, h1, stepProc_done_eq]
          exact Or.inr ⟨rfl, rfl, Or.inr ⟨hwin, Or.inr (Or.inr (Or.inr rfl))⟩⟩

lemma invS_run {db0 : DB} {u k : String} {a : Account} {dto : CreateWithdrawalDto}
    (hfresh : findIdemRecord db0 u k = none)
    (hacct : findAccountByIdAndUser db0 dto.accountId u = some a)
    (hbal : ¬ a.balanceCents < dto.amountCents)
    (sched : List Bool) :
    ∀ s : Sys, InvS db0 u k a dto s → InvS db0 u k a dto (runSys u k dto s sched) := by
  induction sched with
  | nil => intro s h; exact h
  | cons b rest ih =>
    intro s h
    exact ih (stepSys u k dto s b) (invS_step hfresh hacct hbal h b)

/-- A request in the race whose withdrawal keeps failing: it never commits
anything. -/
def FState (p : PState) : Prop :=
  p = .start ∨ p = .tryTx ∨ p = .done (.failed insufficientBalance)

/-- Invariant of the race when the balance is short: the database never
changes and both requests can only fail with `InsufficientBalance`. -/
def InvF (db : DB) (s : Sys) : Prop :=
  s.db = db ∧ FState s.p1 ∧ FState s.p2

lemma invF_step {db0 : DB} {u k : String} {a : Account} {dto : CreateWithdrawalDto}
    (hfresh : findIdemRecord db0 u k = none)
    (hacct : findAccountByIdAndUser db0 dto.accountId u = some a)
    (hbal : a.balanceCents < dto.amountCents)
    {s : Sys} (hinv : InvF db0 s) (b : Bool) :
    InvF db0 (stepSys u k dto s b) := by
  have hacct' : findAccountByIdAndUser (addIdemRecord db0 u k) dto.accountId u = some a :=
    hacct
  have hw : withdrawalWorker u dto (addIdemRecord db0 u k) = .error insufficientBalance :=
    withdrawalWorker_insufficient_eq hacct' hbal
  obtain ⟨hdb, hp1, hp2⟩ := hinv
  cases b with
  | true =>
    rcases hp1 with h1 | h1 | h1
    · simp only [stepSys, hdb, h1, stepProc_start_none hfresh]
      exact ⟨rfl, Or.inr (Or.inl rfl), hp2⟩
    · simp only [stepSys, hdb, h1, stepProc_tryTx_fresh_err hfresh hw]
      exact ⟨rfl, Or.inr (Or.inr rfl), hp2⟩
    · simp only [stepSys, hdb, h1, stepProc_done_eq]
      exact ⟨rfl, Or.inr (Or.inr rfl), hp2⟩
  | false =>
    rcases hp2 with h2 | h2 | h2
    · simp only [stepSys, hdb, h2, stepProc_start_none hfresh]
      exact ⟨rfl, hp1, Or.inr (Or.inl rfl)⟩
    · simp only [stepSys, hdb, h2, stepProc_tryTx_fresh_err hfresh hw]
      exact ⟨rfl, hp1, Or.inr (Or.inr rfl)⟩
    · simp only [stepSys, hdb, h2, stepProc_done_eq]
      exact ⟨rfl, hp1, Or.inr (Or.inr rfl)⟩

lemma invF_run {db0 : DB} {u k : String} {a : Account} {dto : CreateWithdrawalDto}
    (hfresh : findIdemRecord db0 u k = none)
    (hacct : findAccountByIdAndUser db0 dto.accountId u = some a)
    (hbal : a.balanceCents < dto.amountCents)
    (sched : List Bool) :
    ∀ s : Sys, InvF db0 s → InvF db0 (runSys u k dto s sched) := by
  induction sched with
  | nil => intro s h; exact h
  | cons b rest ih =>
    intro s h
    exact ih (stepSys u k dto s b) (invF_step hfresh hacct hbal h b)

lemma winDB_transactions (db : DB) (u k : String) (a : Account)
    (dto : CreateWithdrawalDto) :
    (winDB db u k a dto).transactions =
      db.transactions ++ [withdrawalTxn (addIdemRecord db u k) a dto] := rfl

/-- C6 amended: for two concurrent Withdrawal calls with the same
`(actorId, key)` (fresh key, account owned by the actor), under every
interleaving at most one debit `Transaction` row is ever created — the
uniqueness constraint on `(actorId, idempotencyKey)` is the race arbiter —
and when the withdrawal's balance check can pass, exactly one call reaches
the Transaction Engine and, once both finish, one returns the created
result and the other replays it. (As stated the claim is false: when the
withdrawal fails its balance check, the winner rolls back leaving no
record, so the other call also reaches the engine — see the
counterexample.) -/
theorem c6_concurrent_same_key_withdrawals :
    ∀ (db0 : DB) (u k : String) (dto : CreateWithdrawalDto) (a : Account),
      findIdemRecord db0 u k = none →
      findAccountByIdAndUser db0 dto.accountId u = some a →
      (∀ sched : List Bool,
        (runSys u k dto (initSys db0) sched).db.transactions.length ≤
          db0.transactions.length + 1) ∧
      (¬ a.balanceCents < dto.amountCents →
        ∀ (sched : List Bool) (o1 o2 : Outcome),
          (runSys u k dto (initSys db0) sched).p1 = .done o1 →
          (runSys u k dto (initSys db0) sched).p2 = .done o2 →
          (runSys u k dto (initSys db0) sched).engineRuns = 1 ∧
          ((o1 = .created (winResult db0 a dto) ∧ o2 = .replayed (winResult db0 a dto)) ∨
           (o2 = .created (winResult db0 a dto) ∧ o1 = .replayed (winResult db0 a dto)))) := by
  intro db0 u k dto a hfresh hacct
  constructor
  · intro sched
    by_cases hbal : a.balanceCents < dto.amountCents
    · have h := invF_run hfresh hacct hbal sched (initSys db0)
        ⟨rfl, Or.inl rfl, Or.inl rfl⟩
      rw [h.1]
      omega
    · have h := invS_run hfresh hacct hbal sched (initSys db0)
        (Or.inl ⟨rfl, rfl, Or.inl rfl, Or.inl rfl⟩)
      rcases h with ⟨hdb, _, _⟩ | ⟨hdb, _, _⟩
      · rw [hdb]; omega
      · rw [hdb, winDB_transactions]
        rw [List.length_append]
        simp
  · intro hbal sched o1 o2 h1 h2
    have h := invS_run hfresh hacct hbal sched (initSys db0)
      (Or.inl ⟨rfl, rfl, Or.inl rfl, Or.inl rfl⟩)
    rcases h with ⟨_, _, hp1, _⟩ | ⟨_, hruns, hcase⟩
    · rcases hp1 with hx | hx <;> rw [h1] at hx <;> cases hx
    · refine ⟨hruns, ?_⟩
      rcases hcase with ⟨hwin, hpost⟩ | ⟨hwin, hpost⟩
      · rw [h1] at hwin
        rcases hpost with hx | hx | hx | hx
        · rw [h2] at hx; cases hx
        · rw [h2] at hx; cases hx
        · rw [h2] at hx; cases hx
        · rw [h2] at hx
          refine Or.inl ⟨?_, ?_⟩
          · injection hwin with hh
          · injection hx with hh
      · rw [h2] at hwin
        rcases hpost with hx | hx | hx | hx
        · rw [h1] at hx; cases hx
        · rw [h1] at hx; cases hx
        · rw [h1] at hx; cases hx
        · rw [h1] at hx
          refine Or.inr ⟨?_, ?_⟩
          · injection hwin with hh
          · injection hx with hh

/-- The failing withdrawal used by the C6 counterexample (amount above the
balance of "A" in `dbW`). -/
def wdto150 : CreateWithdrawalDto :=
  { accountId := "A", amountCents := 150, transactionNote := none }

/-- The succeeding withdrawal used by the C6 witness. -/
def wdto40 : CreateWithdrawalDto :=
  { accountId := "A", amountCents := 40, transactionNote := none }

/-- Counterexample to C6 as stated: when the concurrent withdrawals fail
their balance check, the first attempt rolls back leaving no
`IdempotencyRecord`, so the second call ALSO reaches the Transaction
Engine (`engineRuns = 2`, not 1) and neither call returns a replayed
result or `Conflict(IN_PROGRESS)` — both fail with `InsufficientBalance`.
"At most one debit row" still holds (none is created). -/
theorem c6_exactly_one_engine_counterexample :
    (runSys "u" "k1" wdto150 (initSys dbW) [true, true, false, false]).engineRuns = 2 ∧
    (runSys "u" "k1" wdto150 (initSys dbW) [true, true, false, false]).p1 =
      .done (.failed insufficientBalance) ∧
    (runSys "u" "k1" wdto150 (initSys dbW) [true, true, false, false]).p2 =
      .done (.failed insufficientBalance) ∧
    (runSys "u" "k1" wdto150 (initSys dbW) [true, true, false, false]).db = dbW :=
  ⟨by decide, by decide, by decide, by decide⟩

/-- Witness for C6 at concrete inputs: under the interleaving where request
1 completes first, request 1 returns the created result, request 2 replays
it, one debit row exists and the engine ran once. -/
theorem c6_concurrent_same_key_withdrawals_witness :
    (runSys "u" "k6" wdto40 (initSys dbW) [true, true, false, false]).db.transactions.length ≤
      dbW.transactions.length + 1 ∧
    ((runSys "u" "k6" wdto40 (initSys dbW) [true, true, false, false]).engineRuns = 1 ∧
     ((Outcome.created (winResult dbW { id := "A", userId := "u", balanceCents := 100 } wdto40) =
         .created (winResult dbW { id := "A", userId := "u", balanceCents := 100 } wdto40) ∧
       Outcome.replayed (winResult dbW { id := "A", userId := "u", balanceCents := 100 } wdto40) =
         .replayed (winResult dbW { id := "A", userId := "u", balanceCents := 100 } wdto40)) ∨
      (Outcome.replayed (winResult dbW { id := "A", userId := "u", balanceCents := 100 } wdto40) =
         .created (winResult dbW { id := "A", userId := "u", balanceCents := 100 } wdto40) ∧
       Outcome.created (winResult dbW { id := "A", userId := "u", balanceCents := 100 } wdto40) =
         .replayed (winResult dbW { id := "A", userId := "u", balanceCents := 100 } wdto40)))) :=
  ⟨(c6_concurrent_same_key_withdrawals dbW "u" "k6" wdto40
      { id := "A", userId := "u", balanceCents := 100 } (by decide) (by decide)).1
      [true, true, false, false],
   (c6_concurrent_same_key_withdrawals dbW "u" "k6" wdto40
      { id := "A", userId := "u", balanceCents := 100 } (by decide) (by decide)).2
      (by decide) [true, true, false, false]
      (.created (winResult dbW { id := "A", userId := "u", balanceCents := 100 } wdto40))
      (.replayed (winResult dbW { id := "A", userId := "u", balanceCents := 100 } wdto40))
      (by decide) (by decide)⟩

/-- The SQL column type of `Account.balanceCents` declared by migration
`20260210101400_init` (`"balanceCents" INTEGER NOT NULL DEFAULT 0`). -/
def account_balanceCents_sqlType : String := "INTEGER"

/-- The SQL column type of `Transaction.amountCents` declared by the same
migration (`"amountCents" INTEGER NOT NULL`). -/
def transaction_amountCents_sqlType : String := "INTEGER"

/-- Bit width of PostgreSQL's signed integer column types. -/
def sqlIntTypeBits : String → Option Nat
  | "SMALLINT" => some 16
  | "INTEGER" => some 32
  | "BIGINT" => some 64
  | _ => none

/-- Counterexample to C9 as stated: both money columns are declared as
32-bit `INTEGER`, not a type of at least 64 signed bits. -/
theorem c9_column_width_counterexample :
    sqlIntTypeBits account_balanceCents_sqlType = some 32 ∧
    sqlIntTypeBits transaction_amountCents_sqlType = some 32 ∧
    ¬ 64 ≤ 32 :=
  ⟨rfl, rfl, by decide⟩

/-- C9 amended: all money amounts in the balance path are integers in minor
units (`Int` in this embedding — the source performs only integer
arithmetic on cents, no floating point), and every balance increment and
decrement performed by deposit, withdrawal, and transfer is exact integer
arithmetic (an increment followed by the matching decrement restores every
balance exactly); however, the declared storage width of
`Account.balanceCents` and `Transaction.amountCents` is the 32-bit
`INTEGER`, not a ≥64-bit type. -/
theorem c9_integer_minor_units :
    sqlIntTypeBits account_balanceCents_sqlType = some 32 ∧
    sqlIntTypeBits transaction_amountCents_sqlType = some 32 ∧
    (∀ (db : DB) (i : String) (amt : Int),
      (updateBalance (updateBalance db i amt) i (-amt)).accounts = db.accounts) ∧
    (∀ (db : DB) (u : String) (dto : CreateDepositDto) (a : Account),
      findAccountByIdAndUser db dto.accountId u = some a →
      (doDeposit db u dto).map (fun p => p.1.accounts) =
        .ok (db.accounts.map (fun b =>
          if b.id = a.id then { b with balanceCents := b.balanceCents + dto.amountCents }
          else b))) ∧
    (∀ (db : DB) (u : String) (dto : CreateWithdrawalDto) (a : Account),
      findAccountByIdAndUser db dto.accountId u = some a →
      ¬ a.balanceCents < dto.amountCents →
      (doWithdrawal db u dto).map (fun p => p.1.accounts) =
        .ok (db.accounts.map (fun b =>
          if b.id = a.id then { b with balanceCents := b.balanceCents + -dto.amountCents }
          else b))) := by
  refine ⟨rfl, rfl, ?_, ?_, ?_⟩
  · intro db i amt
    rw [updateBalance_accounts, updateBalance_accounts, List.map_map]
    have hpt : ∀ b ∈ db.accounts,
        ((fun a => if a.id = i then { a with balanceCents := a.balanceCents + -amt } else a) ∘
         (fun a => if a.id = i then { a with balanceCents := a.balanceCents + amt } else a)) b
        = id b := by
      intro b _
      simp only [Function.comp, id]
      by_cases h : b.id = i
      · rw [if_pos h,
          if_pos (show (({ b with balanceCents := b.balanceCents + amt } : Account).id = i) from h)]
        have harr : b.balanceCents + amt + -amt = b.balanceCents := by ring
        rw [harr]
      · rw [if_neg h, if_neg h]
    rw [List.map_congr_left hpt, List.map_id]
  · intro db u dto a hfind
    rw [doDeposit_ok_eq hfind]
    rfl
  · intro db u dto a hfind hbal
    rw [doWithdrawal_ok_eq hfind hbal]
    rfl

/-- Witness for C9 at concrete inputs: a 70-cent increment then decrement
on "A" restores `dbW` exactly, and the deposit/withdrawal balance effects
are the exact integer sums. -/
theorem c9_integer_minor_units_witness :
    (updateBalance (updateBalance dbW "A" 70) "A" (-70)).accounts = dbW.accounts ∧
    (doDeposit dbW "u" ddto).map (fun p => p.1.accounts) =
      .ok (dbW.accounts.map (fun b =>
        if b.id = ("A" : String) then { b with balanceCents := b.balanceCents + 200 }
        else b)) ∧
    (doWithdrawal dbW "u" wdto40).map (fun p => p.1.accounts) =
      .ok (dbW.accounts.map (fun b =>
        if b.id = ("A" : String) then { b with balanceCents := b.balanceCents + -40 }
        else b)) :=
  ⟨c9_integer_minor_units.2.2.1 dbW "A" 70,
   c9_integer_minor_units.2.2.2.1 dbW "u" ddto
     { id := "A", userId := "u", balanceCents := 100 } (by decide),
   c9_integer_minor_units.2.2.2.2 dbW "u" wdto40
     { id := "A", userId := "u", balanceCents := 100 } (by decide) (by decide)⟩

lemma createTransfer_run_eq {db : DB} {u : String} {dto : CreateTransferDto}
    {key : String} (hkey : ¬ jsTrim key = "")
    (hne : ¬ dto.fromAccountId = dto.toAccountId) (hamt : ¬ dto.amountCents ≤ 0) :
    createTransfer db u dto key =
      withIdempotency db u (jsTrim key) (transferWorker u dto) := by
  simp [createTransfer, hkey, hne, hamt]

/-- C10: the idempotency key is trimmed of leading and trailing whitespace
before the registry lookup and the PROCESSING insert, so two calls whose
keys differ only in surrounding whitespace address the same
`(actorId, idempotencyKey)` record — the second replays a COMPLETED record
(or conflicts on a PROCESSING one) rather than executing fresh — and a key
that is empty or whitespace-only is rejected with a validation error before
any storage access. -/
theorem c10_idempotency_key_trimmed :
    (∀ (db : DB) (u : String) (dto : CreateTransferDto) (k1 k2 : String),
      jsTrim k1 = jsTrim k2 →
      createTransfer db u dto k1 = createTransfer db u dto k2)
    ∧ (∀ (db : DB) (u : String) (dto : CreateTransferDto) (k : String)
         (r : IdempotencyRecord) (p : CreateTransactionResult),
      ¬ jsTrim k = "" →
      ¬ dto.fromAccountId = dto.toAccountId →
      ¬ dto.amountCents ≤ 0 →
      findIdemRecord db u (jsTrim k) = some r →
      r.status = .COMPLETED → r.responsePayload = some p →
      createTransfer db u dto k =
        .ok (db, { result := p, idempotencyStatus := "COMPLETED" }))
    ∧ (∀ (db : DB) (u : String) (dto : CreateTransferDto) (k : String)
         (r : IdempotencyRecord),
      ¬ jsTrim k = "" →
      ¬ dto.fromAccountId = dto.toAccountId →
      ¬ dto.amountCents ≤ 0 →
      findIdemRecord db u (jsTrim k) = some r →
      r.status = .PROCESSING →
      createTransfer db u dto k = .error idempotencyInProgress)
    ∧ (∀ (db : DB) (u : String) (dto : CreateTransferDto) (k : String),
      jsTrim k = "" →
      createTransfer db u dto k = .error (.badRequest requiredKeyMessage)) := by
  refine ⟨?_, ?_, ?_, ?_⟩
  · intro db u dto k1 k2 h
    unfold createTransfer
    rw [h]
  · intro db u dto k r p hkey hne hamt hfind hst hp
    rw [createTransfer_run_eq hkey hne hamt]
    exact withIdempotency_replay_eq _ hfind hst hp
  · intro db u dto k r hkey hne hamt hfind hst
    rw [createTransfer_run_eq hkey hne hamt]
    exact withIdempotency_processing_eq _ hfind hst
  · intro db u dto k h
    simp [createTransfer, h]

/-- Witness for C10 at concrete inputs: the key `"  k1 "` addresses the
same record as `"k1"`; on `dbK` it replays the stored result, on `dbP` it
conflicts; and a whitespace-only key is rejected. -/
theorem c10_idempotency_key_trimmed_witness :
    createTransfer dbK "u"
      { fromAccountId := "A", toAccountId := "B", amountCents := 5, transactionNote := none }
      "  k1 " =
    createTransfer dbK "u"
      { fromAccountId := "A", toAccountId := "B", amountCents := 5, transactionNote := none }
      "k1" ∧
    createTransfer dbK "u"
      { fromAccountId := "A", toAccountId := "B", amountCents := 5, transactionNote := none }
      "  k1 " = .ok (dbK, { result := resK, idempotencyStatus := "COMPLETED" }) ∧
    createTransfer dbP "u"
      { fromAccountId := "A", toAccountId := "B", amountCents := 5, transactionNote := none }
      "  k1 " = .error idempotencyInProgress ∧
    createTransfer dbW "u"
      { fromAccountId := "A", toAccountId := "B", amountCents := 5, transactionNote := none }
      "   " = .error (.badRequest requiredKeyMessage) :=
  ⟨c10_idempotency_key_trimmed.1 dbK "u" _ "  k1 " "k1" (by decide),
   c10_idempotency_key_trimmed.2.1 dbK "u" _ "  k1 "
     { userId := "u", idempotencyKey := "k1", status := .COMPLETED,
       responsePayload := some resK } resK
     (by decide) (by decide) (by decide) (by decide) (by decide) (by decide),
   c10_idempotency_key_trimmed.2.2.1 dbP "u" _ "  k1 "
     { userId := "u", idempotencyKey := "k1", status := .PROCESSING,
       responsePayload := none }
     (by decide) (by decide) (by decide) (by decide) (by decide),
   c10_idempotency_key_trimmed.2.2.2 dbW "u" _ "   " (by decide)⟩

end Ledger
